import Mathlib

/-!
Verification development for the `fourex` 4X game engine
(`backend/src/game/models.py`, `backend/src/game/rules.py`,
`backend/src/api/persistent_game_controller.py`).

The Python source is shallowly embedded: Pydantic models become Lean
structures, Python `dict`s become insertion-ordered association lists with
unique keys (`dictGet` / `dictInsert` / `dictErase` mirror `d.get`,
`d[k] = v` and `del d[k]`), in-place mutation becomes explicit state
passing, Python `int` becomes `Int` with `Int.fdiv` for `//` (floor
division) and `Int.tdiv` for `int()` truncation, and `random.random()`
output is abstracted as an explicit stream fully determined by the seed
(Python's `random.Random(seed)` Mersenne Twister stream).  Each
`rng.random()` value is exactly `k / 2^53` for a 53-bit integer `k`; the
stream carries those numerators, and a float comparison `roll < c` is the
exact integer comparison `k < T_c`, where `T_c` is the least integer
strictly greater than `c * 2^53` for the IEEE-754 double `c` (float
comparison of exactly-represented values is exact).  Python truthiness tests on optional ints/strings
(`if tile.unit_id:`) are modelled by `pyTruthyInt` / `pyTruthyStr`,
which are falsy on `none`, `some 0` and `some ""` exactly as in Python.
-/

set_option linter.unusedVariables false

/-- `models.py` `Terrain` (str enum). -/
inductive Terrain where
  | plains
  | forest
  | mountain
  | water
deriving DecidableEq, Repr

/-- `models.py` `Resource` (str enum). -/
inductive Resource where
  | food
  | wood
  | ore
  | crystal
deriving DecidableEq, Repr

/-- `models.py` `UnitType` (str enum). -/
inductive UnitType where
  | scout
  | worker
  | soldier
  | archer
deriving DecidableEq, Repr

/-- `models.py` `BuildingType` (str enum). -/
inductive BuildingType where
  | granary
  | barracks
  | walls
deriving DecidableEq, Repr

/-- `models.py` `ImprovementType` (str enum). -/
inductive ImprovementType where
  | farm
  | mine
  | crystal_extractor
deriving DecidableEq, Repr

/-- `models.py` `DiplomaticState` (str enum). -/
inductive DiplomaticState where
  | peace
  | alliance
  | war
deriving DecidableEq, Repr

/-- `models.py` `PlayerId = str`. -/
def PlayerId := String
deriving DecidableEq, Repr

/-- `models.py` `Coord`: integer map coordinate. -/
structure Coord where
  x : Int
  y : Int
deriving DecidableEq, Repr

/-- `Coord.distance_to`: orthogonal (Manhattan) distance. -/
def Coord.distance_to (self other : Coord) : Int :=
  (self.x - other.x).natAbs + (self.y - other.y).natAbs

/-- `models.py` `ResourceBag`. -/
structure ResourceBag where
  food : Int := 0
  wood : Int := 0
  ore : Int := 0
  crystal : Int := 0
deriving DecidableEq, Repr

/-- `ResourceBag.__add__`. -/
def ResourceBag.add (self other : ResourceBag) : ResourceBag :=
  { food := self.food + other.food
    wood := self.wood + other.wood
    ore := self.ore + other.ore
    crystal := self.crystal + other.crystal }

/-- `ResourceBag.__sub__`. -/
def ResourceBag.sub (self other : ResourceBag) : ResourceBag :=
  { food := self.food - other.food
    wood := self.wood - other.wood
    ore := self.ore - other.ore
    crystal := self.crystal - other.crystal }

/-- `ResourceBag.can_afford`. -/
def ResourceBag.can_afford (self cost : ResourceBag) : Bool :=
  decide (self.food ≥ cost.food) && decide (self.wood ≥ cost.wood) &&
  decide (self.ore ≥ cost.ore) && decide (self.crystal ≥ cost.crystal)

/-- `models.py` `UnitStats`. -/
structure UnitStats where
  cost : ResourceBag
  moves : Int
  hp : Int
  sight : Int
  attack : Int
  attack_range : Int
  special : String := ""
deriving DecidableEq, Repr

/-- `models.py` `UNIT_STATS` table (a dict keyed by the four unit types,
hence a total function here). -/
def UNIT_STATS : UnitType → UnitStats
  | .scout =>
    { cost := { food := 20 }, moves := 3, hp := 2, sight := 3, attack := 1,
      attack_range := 1, special := "Ignores forest movement penalty" }
  | .worker =>
    { cost := { food := 30 }, moves := 2, hp := 2, sight := 2, attack := 0,
      attack_range := 0, special := "Builds improvements, cities" }
  | .soldier =>
    { cost := { food := 30, ore := 10 }, moves := 2, hp := 4, sight := 2,
      attack := 2, attack_range := 1, special := "+25% vs cities" }
  | .archer =>
    { cost := { food := 30, wood := 10 }, moves := 2, hp := 3, sight := 3,
      attack := 2, attack_range := 2, special := "Ranged; no counter-attack" }

/-- `models.py` `Tile`. -/
structure Tile where
  id : Int
  loc : Coord
  terrain : Terrain
  resource : Option Resource := none
  owner : Option PlayerId := none
  city_id : Option Int := none
  unit_id : Option Int := none
  improvement : Option ImprovementType := none
deriving DecidableEq, Repr

/-- `models.py` `Unit` (named `GameUnit` here because Lean already owns the
name `Unit`). -/
structure GameUnit where
  id : Int
  owner : PlayerId
  type : UnitType
  hp : Int
  moves_left : Int
  loc : Coord
deriving DecidableEq, Repr

/-- `Unit.stats` property. -/
def GameUnit.stats (self : GameUnit) : UnitStats :=
  UNIT_STATS self.type

/-- `Unit.can_attack`. -/
def GameUnit.can_attack (self : GameUnit) (target_loc : Coord) : Bool :=
  decide (self.loc.distance_to target_loc ≤ self.stats.attack_range) &&
  decide (self.stats.attack > 0)

/-- `models.py` `BuildJob`. -/
structure BuildJob where
  type : String
  target : String
  progress : Int := 0
  total_cost : Int := 1
deriving DecidableEq, Repr

/-- `models.py` `City`.  `buildings` is a Python `set[BuildingType]`,
modelled as a list (membership is all the rules ever use; serialization
order of a Python set is an artifact of the hash seed, see `hash_state`). -/
structure City where
  id : Int
  owner : PlayerId
  loc : Coord
  hp : Int := 10
  build_queue : Option BuildJob := none
  buildings : List BuildingType := []
deriving DecidableEq, Repr

/-- `City.has_walls`. -/
def City.has_walls (self : City) : Bool :=
  self.buildings.contains .walls

/-- `City.food_multiplier` returns the float 1.5 or 1.0; the only use is
`int(1 * m)` in `collect_resources`, kept there; this flag mirrors the
granary test. -/
def City.has_granary (self : City) : Bool :=
  self.buildings.contains .granary

/-- `City.unit_cost_multiplier` returns the float 0.75 or 1.0; the only use
is `int(cost * m)` in `execute_train_unit`, kept there; this flag mirrors
the barracks test. -/
def City.has_barracks (self : City) : Bool :=
  self.buildings.contains .barracks

/-- Insertion-ordered association list standing for a Python `dict` with
unique keys: `d.get(k)` (first — and only — occurrence wins). -/
def dictGet {κ α : Type} [DecidableEq κ] : List (κ × α) → κ → Option α
  | [], _ => none
  | (k', v) :: rest, k => if k' = k then some v else dictGet rest k

/-- Python `d[k] = v`: replace the value at an existing key in place
(keeping its position, as `dict` does), else append the new entry. -/
def dictInsert {κ α : Type} [DecidableEq κ] : List (κ × α) → κ → α → List (κ × α)
  | [], k, v => [(k, v)]
  | (k', v') :: rest, k, v =>
    if k' = k then (k, v) :: rest else (k', v') :: dictInsert rest k v

/-- Python `del d[k]` (no-op when the key is absent; the engine only
deletes keys it has just looked up). -/
def dictErase {κ α : Type} [DecidableEq κ] : List (κ × α) → κ → List (κ × α)
  | [], _ => []
  | (k', v') :: rest, k =>
    if k' = k then rest else (k', v') :: dictErase rest k

/-- Keys of a dict, in insertion order. -/
def dictKeys {κ α : Type} (d : List (κ × α)) : List κ :=
  d.map Prod.fst

/-- Python truthiness of an `int | None` value: `None` and `0` are falsy. -/
def pyTruthyInt : Option Int → Bool
  | none => false
  | some v => v ≠ 0

/-- Python truthiness of a `str | None` value: `None` and `""` are falsy. -/
def pyTruthyStr : Option String → Bool
  | none => false
  | some s => s ≠ ""

/-- `models.py` `GameState` (aggregate root), with the source's field
defaults.  `units`, `cities`, `diplomacy` and `stockpiles` are Python dicts,
modelled as insertion-ordered association lists. -/
structure GameState where
  turn : Int := 0
  rng_state : Int := 42
  map_width : Int := 20
  map_height : Int := 20
  tiles : List Tile := []
  units : List (Int × GameUnit) := []
  cities : List (Int × City) := []
  players : List PlayerId := []
  diplomacy : List ((PlayerId × PlayerId) × DiplomaticState) := []
  stockpiles : List (PlayerId × ResourceBag) := []
  next_unit_id : Int := 1
  next_city_id : Int := 1
  max_turns : Int := 100
deriving DecidableEq, Repr

/-- `GameState.get_tile`: first tile whose `loc` matches. -/
def GameState.get_tile (self : GameState) (loc : Coord) : Option Tile :=
  self.tiles.find? (fun t => t.loc = loc)

/-- `GameState.get_unit`. -/
def GameState.get_unit (self : GameState) (unit_id : Int) : Option GameUnit :=
  dictGet self.units unit_id

/-- `GameState.get_city`. -/
def GameState.get_city (self : GameState) (city_id : Int) : Option City :=
  dictGet self.cities city_id

/-- `GameState.get_diplomatic_state`: a player is always allied with
themself; otherwise look up `(p1, p2)`, then `(p2, p1)`, defaulting to
peace. -/
def GameState.get_diplomatic_state (self : GameState) (player1 player2 : PlayerId) :
    DiplomaticState :=
  if player1 = player2 then .alliance
  else ((dictGet self.diplomacy (player1, player2)).getD
    ((dictGet self.diplomacy (player2, player1)).getD .peace))

/-- Rewrite the first list element whose `loc` matches. -/
def updateFirstTile : List Tile → Coord → (Tile → Tile) → List Tile
  | [], _, _ => []
  | t :: rest, loc, f =>
    if t.loc = loc then f t :: rest else t :: updateFirstTile rest loc f

/-- In-place mutation of the tile object returned by `get_tile`: rewrite the
first tile whose `loc` matches (no-op when no tile matches, mirroring the
`if tile:` guards at every mutation site). -/
def GameState.update_tile (self : GameState) (loc : Coord) (f : Tile → Tile) :
    GameState :=
  { self with tiles := updateFirstTile self.tiles loc f }

/-- `models.py` `MoveAction` payload. -/
structure MoveAction where
  unit_id : Int
  «to» : Coord
deriving DecidableEq, Repr

/-- `models.py` `AttackAction` payload (`target_type` is a plain `str`). -/
structure AttackAction where
  attacker_id : Int
  target_id : Int
  target_type : String
deriving DecidableEq, Repr

/-- `models.py` `BuildImprovementAction` payload. -/
structure BuildImprovementAction where
  worker_id : Int
  improvement : ImprovementType
deriving DecidableEq, Repr

/-- `models.py` `FoundCityAction` payload. -/
structure FoundCityAction where
  worker_id : Int
deriving DecidableEq, Repr

/-- `models.py` `TrainUnitAction` payload (`unit_type` is validated into the
`UnitType` enum by Pydantic, so `action.unit_type not in UNIT_STATS` in
`execute_train_unit` can never hold and is not modelled). -/
structure TrainUnitAction where
  city_id : Int
  unit_type : UnitType
deriving DecidableEq, Repr

/-- `models.py` `BuildBuildingAction` payload. -/
structure BuildBuildingAction where
  city_id : Int
  building_type : BuildingType
deriving DecidableEq, Repr

/-- `models.py` `Action` discriminated union (named `GameAction` here
because Mathlib already owns the name `Action`).  In the source every record
carries a mutable `type: str` field defaulting to its kind's tag, and
`resolve_turn` dispatches on that string; the `unknown` constructor stands
for any record whose tag matches none of the six known tags (its payload is
never read on that path).  A record whose tag names a *different* known
kind would crash Python's dispatch with an `AttributeError` and is outside
this action model. -/
inductive GameAction where
  | move : MoveAction → GameAction
  | attack : AttackAction → GameAction
  | build_improvement : BuildImprovementAction → GameAction
  | found_city : FoundCityAction → GameAction
  | train_unit : TrainUnitAction → GameAction
  | build_building : BuildBuildingAction → GameAction
  | unknown : String → GameAction
deriving DecidableEq, Repr

/-- The `type` tag string of an action. -/
def GameAction.type : GameAction → String
  | .move _ => "MOVE"
  | .attack _ => "ATTACK"
  | .build_improvement _ => "BUILD_IMPROVEMENT"
  | .found_city _ => "FOUND_CITY"
  | .train_unit _ => "TRAIN_UNIT"
  | .build_building _ => "BUILD_BUILDING"
  | .unknown t => t

/-- `models.py` `ActionResult`. -/
structure ActionResult where
  success : Bool
  message : String
  action : GameAction
deriving DecidableEq, Repr

/-- `models.py` `TurnResult`. -/
structure TurnResult where
  turn : Int
  player_actions : List (PlayerId × List ActionResult)
  state_hash : String
deriving DecidableEq, Repr

/-- `rules.py` `is_valid_move`: `(valid, message)`.  The occupancy test is
Python's `if target_tile.unit_id and target_tile.unit_id != unit.id:`, i.e.
a truthiness test (`0` falsy) plus inequality with the mover's id. -/
def is_valid_move (state : GameState) (unit : GameUnit) (target : Coord) :
    Bool × String :=
  let distance := unit.loc.distance_to target
  if distance > unit.moves_left then
    (false, "Unit " ++ toString unit.id ++ " has " ++ toString unit.moves_left ++
      " moves left, need " ++ toString distance)
  else
    match state.get_tile target with
    | none => (false, "Target location is invalid")
    | some target_tile =>
      if target_tile.terrain = .water then
        (false, "Cannot move into water")
      else if target_tile.terrain = .mountain then
        (false, "Cannot move into mountains")
      else if pyTruthyInt target_tile.unit_id && target_tile.unit_id != some unit.id then
        (false, "Another unit is on target tile")
      else
        (true, "Valid move")

/-- `rules.py` `execute_move`. -/
def execute_move (state : GameState) (action : MoveAction) :
    GameState × ActionResult :=
  match state.get_unit action.unit_id with
  | none =>
    (state, { success := false,
              message := "Unit " ++ toString action.unit_id ++ " not found",
              action := .move action })
  | some unit =>
    let v := is_valid_move state unit action.«to»
    if v.1 then
      let s1 := state.update_tile unit.loc (fun t => { t with unit_id := none })
      let s2 := s1.update_tile action.«to» (fun t => { t with unit_id := some unit.id })
      let distance := unit.loc.distance_to action.«to»
      let unit' := { unit with loc := action.«to», moves_left := unit.moves_left - distance }
      let s3 := { s2 with units := dictInsert s2.units action.unit_id unit' }
      (s3, { success := true,
             message := "Unit " ++ toString unit.id ++ " moved",
             action := .move action })
    else
      (state, { success := false, message := v.2, action := .move action })

/-- The successful unit-vs-unit branch of `rules.py` `execute_attack`
(reached after the range and diplomacy checks pass): damage
`max(1, atk - def // 2)`, counter-attack when the defender survives and can
reach back, removal of any participant at `hp <= 0`. -/
def attack_unit_hit (state : GameState) (action : AttackAction)
    (attacker target : GameUnit) : GameState × ActionResult :=
  let attacker_strength := attacker.stats.attack
  let defender_strength := target.stats.attack
  let damage := max 1 (attacker_strength - defender_strength.fdiv 2)
  let target1 := { target with hp := target.hp - damage }
  let counters := target1.hp > 0 && target1.can_attack attacker.loc
  let attacker1 :=
    if counters then
      { attacker with hp := attacker.hp - max 1 (defender_strength - attacker_strength.fdiv 2) }
    else attacker
  let s1 := { state with units := dictInsert state.units action.target_id target1 }
  let s2 := { s1 with units := dictInsert s1.units action.attacker_id attacker1 }
  let s3 :=
    if target1.hp ≤ 0 then
      let s := s2.update_tile target1.loc (fun t => { t with unit_id := none })
      { s with units := dictErase s.units target1.id }
    else s2
  let s4 :=
    if attacker1.hp ≤ 0 then
      let s := s3.update_tile attacker1.loc (fun t => { t with unit_id := none })
      { s with units := dictErase s.units attacker1.id }
    else s3
  (s4, { success := true,
         message := "Unit " ++ toString attacker.id ++ " attacks unit " ++
           toString target.id,
         action := .attack action })

/-- The successful unit-vs-city branch of `rules.py` `execute_attack`:
soldiers deal `int(attack * 1.25)` (exact for these small ints, hence
`(attack * 5).tdiv 4`), walls counter for a fixed 2, the attacker is removed
at `hp <= 0`, and a city at `hp <= 0` is captured with hp reset to 1. -/
def attack_city_hit (state : GameState) (action : AttackAction)
    (attacker : GameUnit) (target_city : City) : GameState × ActionResult :=
  let attacker_strength :=
    if attacker.type = .soldier then (attacker.stats.attack * 5).tdiv 4
    else attacker.stats.attack
  let damage := max 1 attacker_strength
  let city1 := { target_city with hp := target_city.hp - damage }
  let attacker1 :=
    if city1.has_walls && city1.hp > 0 then { attacker with hp := attacker.hp - 2 }
    else attacker
  let s1 := { state with cities := dictInsert state.cities action.target_id city1 }
  let s2 := { s1 with units := dictInsert s1.units action.attacker_id attacker1 }
  let s3 :=
    if attacker1.hp ≤ 0 then
      let s := s2.update_tile attacker1.loc (fun t => { t with unit_id := none })
      { s with units := dictErase s.units attacker1.id }
    else s2
  let captured := { city1 with owner := attacker.owner, hp := 1 }
  let s4 :=
    if city1.hp ≤ 0 then
      { s3 with cities := dictInsert s3.cities action.target_id captured }
    else s3
  (s4, { success := true,
         message := "Unit " ++ toString attacker.id ++ " attacks city " ++
           toString target_city.id,
         action := .attack action })

/-- `rules.py` `execute_attack`. -/
def execute_attack (state : GameState) (action : AttackAction) :
    GameState × ActionResult :=
  match state.get_unit action.attacker_id with
  | none =>
    (state, { success := false,
              message := "Attacker " ++ toString action.attacker_id ++ " not found",
              action := .attack action })
  | some attacker =>
    if action.target_type = "unit" then
      match state.get_unit action.target_id with
      | none =>
        (state, { success := false,
                  message := "Target unit " ++ toString action.target_id ++ " not found",
                  action := .attack action })
      | some target =>
        if attacker.can_attack target.loc then
          if state.get_diplomatic_state attacker.owner target.owner = .alliance then
            (state, { success := false,
                      message := "Cannot attack allied unit " ++ toString target.id,
                      action := .attack action })
          else
            attack_unit_hit state action attacker target
        else
          (state, { success := false,
                    message := "Unit " ++ toString attacker.id ++
                      " cannot attack unit " ++ toString target.id ++ " at range",
                    action := .attack action })
    else if action.target_type = "city" then
      match state.get_city action.target_id with
      | none =>
        (state, { success := false,
                  message := "Target city " ++ toString action.target_id ++ " not found",
                  action := .attack action })
      | some target_city =>
        if attacker.can_attack target_city.loc then
          if state.get_diplomatic_state attacker.owner target_city.owner = .alliance then
            (state, { success := false,
                      message := "Cannot attack allied city " ++ toString target_city.id,
                      action := .attack action })
          else
            attack_city_hit state action attacker target_city
        else
          (state, { success := false,
                    message := "Unit " ++ toString attacker.id ++
                      " cannot attack city " ++ toString target_city.id ++ " at range",
                    action := .attack action })
    else
      (state, { success := false,
                message := "Invalid target type: " ++ action.target_type,
                action := .attack action })

/-- `rules.py` `execute_found_city`.  Checks run in source order: worker
exists, is a worker, owner can afford 30 food, tile exists, tile has no
city (`if tile.city_id:` truthiness), terrain is not water/mountain.  On
success: create the city, mark the tile, deduct the cost, remove the
worker. -/
def execute_found_city (state : GameState) (action : FoundCityAction) :
    GameState × ActionResult :=
  match state.get_unit action.worker_id with
  | none =>
    (state, { success := false,
              message := "Worker " ++ toString action.worker_id ++ " not found",
              action := .found_city action })
  | some worker =>
    if worker.type ≠ .worker then
      (state, { success := false,
                message := "Unit " ++ toString worker.id ++ " is not a worker",
                action := .found_city action })
    else
      let cost : ResourceBag := { food := 30 }
      let player_resources := (dictGet state.stockpiles worker.owner).getD {}
      if ¬ player_resources.can_afford cost then
        (state, { success := false,
                  message := "Player cannot afford city (need 30 food)",
                  action := .found_city action })
      else
        match state.get_tile worker.loc with
        | none =>
          (state, { success := false, message := "Invalid location for city",
                    action := .found_city action })
        | some tile =>
          if pyTruthyInt tile.city_id then
            (state, { success := false, message := "City already exists here",
                      action := .found_city action })
          else if tile.terrain = .water ∨ tile.terrain = .mountain then
            (state, { success := false, message := "Cannot found city on this terrain",
                      action := .found_city action })
          else
            let city : City := { id := state.next_city_id, owner := worker.owner,
                                 loc := worker.loc }
            let s1 := { state with cities := dictInsert state.cities city.id city,
                                   next_city_id := state.next_city_id + 1 }
            let s2 := s1.update_tile worker.loc
              (fun t => { t with city_id := some city.id, owner := some worker.owner })
            let sp3 := dictInsert s2.stockpiles worker.owner (player_resources.sub cost)
            let s3 := { s2 with stockpiles := sp3 }
            let s4 := s3.update_tile worker.loc (fun t => { t with unit_id := none })
            let s5 := { s4 with units := dictErase s4.units worker.id }
            (s5, { success := true,
                   message := "City " ++ toString city.id ++ " founded",
                   action := .found_city action })

/-- `rules.py` `execute_train_unit`.  The cost multiplier is the float
0.75 with a barracks (else 1.0), applied per resource as `int(c * m)`;
for these non-negative integer costs that is exactly `(c * 3).tdiv 4`
(and the identity without a barracks). -/
def execute_train_unit (state : GameState) (action : TrainUnitAction) :
    GameState × ActionResult :=
  match state.get_city action.city_id with
  | none =>
    (state, { success := false,
              message := "City " ++ toString action.city_id ++ " not found",
              action := .train_unit action })
  | some city =>
    let base_cost := (UNIT_STATS action.unit_type).cost
    let actual_cost :=
      if city.has_barracks then
        ({ food := (base_cost.food * 3).tdiv 4, wood := (base_cost.wood * 3).tdiv 4,
           ore := (base_cost.ore * 3).tdiv 4,
           crystal := (base_cost.crystal * 3).tdiv 4 } : ResourceBag)
      else base_cost
    let player_resources := (dictGet state.stockpiles city.owner).getD {}
    if ¬ player_resources.can_afford actual_cost then
      (state, { success := false, message := "Player cannot afford unit",
                action := .train_unit action })
    else
      let city_tile := state.get_tile city.loc
      if (city_tile.map (fun t => pyTruthyInt t.unit_id)).getD false then
        (state, { success := false,
                  message := "City " ++ toString city.id ++ " tile is occupied",
                  action := .train_unit action })
      else
        let unit_stats := UNIT_STATS action.unit_type
        let unit : GameUnit := { id := state.next_unit_id, owner := city.owner,
                                 type := action.unit_type, hp := unit_stats.hp,
                                 moves_left := unit_stats.moves, loc := city.loc }
        let s1 := { state with units := dictInsert state.units unit.id unit,
                               next_unit_id := state.next_unit_id + 1 }
        let s2 := s1.update_tile city.loc (fun t => { t with unit_id := some unit.id })
        let sp3 := dictInsert s2.stockpiles city.owner (player_resources.sub actual_cost)
        let s3 := { s2 with stockpiles := sp3 }
        (s3, { success := true,
               message := "Unit " ++ toString unit.id ++ " trained in city " ++
                 toString city.id,
               action := .train_unit action })

/-- `rules.py` `collect_resources`, city half: each city adds
`int(1 * food_multiplier())` food — `int(1.5) = 1` with a granary,
`int(1.0) = 1` without — to its owner's stockpile (creating the entry if
absent, as `stockpiles.get(owner, ResourceBag())` does). -/
def collect_city_food (stockpiles : List (PlayerId × ResourceBag))
    (cities : List (Int × City)) : List (PlayerId × ResourceBag) :=
  cities.foldl
    (fun sp kc =>
      let city := kc.2
      let food_production : Int := if city.has_granary then (3 : Int).tdiv 2 else 1
      let current := (dictGet sp city.owner).getD {}
      dictInsert sp city.owner { current with food := current.food + food_production })
    stockpiles

/-- `rules.py` `collect_resources`, improvement half: each tile with a
truthy `improvement` and a truthy `owner` yields, when improvement and
resource match (farm→food +2, mine→ore +2, crystal extractor→crystal +1),
that bag to the tile's owner. -/
def collect_tile_improvements (stockpiles : List (PlayerId × ResourceBag))
    (tiles : List Tile) : List (PlayerId × ResourceBag) :=
  tiles.foldl
    (fun sp tile =>
      if tile.improvement.isSome && pyTruthyStr tile.owner then
        let generated : ResourceBag :=
          if tile.improvement = some .farm ∧ tile.resource = some .food then
            { food := 2 }
          else if tile.improvement = some .mine ∧ tile.resource = some .ore then
            { ore := 2 }
          else if tile.improvement = some .crystal_extractor ∧
              tile.resource = some .crystal then
            { crystal := 1 }
          else {}
        if generated ≠ ({} : ResourceBag) then
          match tile.owner with
          | some owner =>
            let current := (dictGet sp owner).getD {}
            dictInsert sp owner (current.add generated)
          | none => sp
        else sp
      else sp)
    stockpiles

/-- `rules.py` `collect_resources` (mutates only `stockpiles`). -/
def collect_resources (state : GameState) : GameState :=
  let sp := collect_tile_improvements (collect_city_food state.stockpiles state.cities) state.tiles
  { state with stockpiles := sp }

/-- `rules.py` `reset_unit_moves`: every unit's `moves_left` is reset to its
type's base `moves`. -/
def reset_unit_moves (state : GameState) : GameState :=
  { state with units :=
      state.units.map (fun ku => (ku.1, { ku.2 with moves_left := ku.2.stats.moves })) }

/-- The per-action dispatch inlined in `rules.py` `resolve_turn`: match on
`action.type`, with `BUILD_IMPROVEMENT` / `BUILD_BUILDING` as always-failing
placeholders and a descriptive failure for unknown tags.  For this action
representation, dispatching on the constructor and on the tag string
coincide. -/
def apply_action (state : GameState) (action : GameAction) :
    GameState × ActionResult :=
  match action with
  | .move a => execute_move state a
  | .attack a => execute_attack state a
  | .found_city a => execute_found_city state a
  | .train_unit a => execute_train_unit state a
  | .build_improvement _ =>
    (state, { success := false,
              message := "Improvement building not implemented yet",
              action := action })
  | .build_building _ =>
    (state, { success := false,
              message := "Building construction not implemented yet",
              action := action })
  | .unknown t =>
    (state, { success := false, message := "Unknown action type: " ++ t,
              action := action })

/-- The `.value` string of the `Terrain` str enum (what
`model_dump(mode="json")` emits). -/
def Terrain.value : Terrain → String
  | .plains => "plains"
  | .forest => "forest"
  | .mountain => "mountain"
  | .water => "water"

/-- `Resource` enum value string. -/
def Resource.value : Resource → String
  | .food => "food"
  | .wood => "wood"
  | .ore => "ore"
  | .crystal => "crystal"

/-- `UnitType` enum value string. -/
def UnitType.value : UnitType → String
  | .scout => "scout"
  | .worker => "worker"
  | .soldier => "soldier"
  | .archer => "archer"

/-- `BuildingType` enum value string. -/
def BuildingType.value : BuildingType → String
  | .granary => "granary"
  | .barracks => "barracks"
  | .walls => "walls"

/-- `ImprovementType` enum value string. -/
def ImprovementType.value : ImprovementType → String
  | .farm => "farm"
  | .mine => "mine"
  | .crystal_extractor => "crystal_extractor"

/-- `DiplomaticState` enum value string. -/
def DiplomaticState.value : DiplomaticState → String
  | .peace => "peace"
  | .alliance => "alliance"
  | .war => "war"

/-- Lowercase hex digit. -/
def hexDigitChar (n : Nat) : Char :=
  if n < 10 then Char.ofNat (48 + n) else Char.ofNat (87 + n)

/-- Fixed-width lowercase hex rendering (most significant digit first). -/
def hexFixed (width n : Nat) : List Char :=
  (List.range width).map (fun i => hexDigitChar (n / 16 ^ (width - 1 - i) % 16))

/-- One escaped character of a `json.dumps` (`ensure_ascii=True`) string:
the two-character shortcuts, `\uXXXX` for other control and non-ASCII
characters (astral-plane surrogate pairs are not modelled; the engine's
serialized strings are ASCII). -/
def jsonEscapeChar (c : Char) : String :=
  if c = Char.ofNat 34 then "\\\""
  else if c = Char.ofNat 92 then "\\\\"
  else if c = Char.ofNat 10 then "\\n"
  else if c = Char.ofNat 13 then "\\r"
  else if c = Char.ofNat 9 then "\\t"
  else if c = Char.ofNat 8 then "\\b"
  else if c = Char.ofNat 12 then "\\f"
  else if c.toNat < 32 || c.toNat > 126 then
    "\\u" ++ String.mk (hexFixed 4 c.toNat)
  else String.singleton c

/-- A JSON string literal as `json.dumps` renders it. -/
def jsonStr (s : String) : String :=
  "\"" ++ String.join (s.toList.map jsonEscapeChar) ++ "\""

/-- A JSON array with `json.dumps`'s default `", "` separator. -/
def jsonList (items : List String) : String :=
  "[" ++ String.intercalate ", " items ++ "]"

/-- A JSON object from already-sorted `(key, rendered value)` pairs, with
`json.dumps`'s default `", "` / `": "` separators. -/
def jsonObj (fields : List (String × String)) : String :=
  "\x7b" ++ String.intercalate ", "
    (fields.map (fun kv => jsonStr kv.1 ++ ": " ++ kv.2)) ++ "\x7d"

/-- `null` / rendered value of an optional field. -/
def jsonOpt {α : Type} (f : α → String) : Option α → String
  | none => "null"
  | some v => f v

/-- `json.dumps(..., sort_keys=True)` sorting of dynamic dict keys:
lexicographic by code point, exactly Python's `str` order for these ASCII
keys. -/
def sortEntries (l : List (String × String)) : List (String × String) :=
  l.insertionSort (fun a b => ¬ b.1 < a.1)

/-- JSON of a `Coord`. -/
def coordJson (c : Coord) : String :=
  jsonObj [("x", toString c.x), ("y", toString c.y)]

/-- JSON of a `Tile` (keys in sorted order). -/
def tileJson (t : Tile) : String :=
  jsonObj [("city_id", jsonOpt toString t.city_id),
           ("id", toString t.id),
           ("improvement", jsonOpt (fun i => jsonStr i.value) t.improvement),
           ("loc", coordJson t.loc),
           ("owner", jsonOpt jsonStr t.owner),
           ("resource", jsonOpt (fun r => jsonStr r.value) t.resource),
           ("terrain", jsonStr t.terrain.value),
           ("unit_id", jsonOpt toString t.unit_id)]

/-- JSON of a `Unit` (keys in sorted order). -/
def unitJson (u : GameUnit) : String :=
  jsonObj [("hp", toString u.hp),
           ("id", toString u.id),
           ("loc", coordJson u.loc),
           ("moves_left", toString u.moves_left),
           ("owner", jsonStr u.owner),
           ("type", jsonStr u.type.value)]

/-- JSON of a `BuildJob` (keys in sorted order). -/
def buildJobJson (j : BuildJob) : String :=
  jsonObj [("progress", toString j.progress),
           ("target", jsonStr j.target),
           ("total_cost", toString j.total_cost),
           ("type", jsonStr j.type)]

/-- JSON of a `City` (keys in sorted order; `buildings` renders the set in
its iteration order). -/
def cityJson (c : City) : String :=
  jsonObj [("build_queue", jsonOpt buildJobJson c.build_queue),
           ("buildings", jsonList (c.buildings.map (fun b => jsonStr b.value))),
           ("hp", toString c.hp),
           ("id", toString c.id),
           ("loc", coordJson c.loc),
           ("owner", jsonStr c.owner)]

/-- JSON of a `ResourceBag` (keys in sorted order). -/
def resourceBagJson (b : ResourceBag) : String :=
  jsonObj [("crystal", toString b.crystal),
           ("food", toString b.food),
           ("ore", toString b.ore),
           ("wood", toString b.wood)]

/-- `GameState.hash_state`'s serialization step:
`json.dumps(self.model_dump(mode="json"), sort_keys=True, default=str)`.
Static model keys are emitted directly in their sorted order; dynamic dict
keys (unit/city ids rendered as decimal strings, player ids, and
`"p1,p2"` tuple keys for `diplomacy` as Pydantic's JSON mode renders
them) are sorted as strings. -/
def serialize_game_state (s : GameState) : String :=
  jsonObj
    [("cities", jsonObj (sortEntries
        (s.cities.map (fun kc => (toString kc.1, cityJson kc.2))))),
     ("diplomacy", jsonObj (sortEntries
        (s.diplomacy.map (fun kd => (kd.1.1 ++ "," ++ kd.1.2, jsonStr kd.2.value))))),
     ("map_height", toString s.map_height),
     ("map_width", toString s.map_width),
     ("max_turns", toString s.max_turns),
     ("next_city_id", toString s.next_city_id),
     ("next_unit_id", toString s.next_unit_id),
     ("players", jsonList (s.players.map (fun p => jsonStr p))),
     ("rng_state", toString s.rng_state),
     ("stockpiles", jsonObj (sortEntries
        (s.stockpiles.map (fun kb => ((kb.1 : String), resourceBagJson kb.2))))),
     ("tiles", jsonList (s.tiles.map tileJson)),
     ("turn", toString s.turn),
     ("units", jsonObj (sortEntries
        (s.units.map (fun ku => (toString ku.1, unitJson ku.2)))))]

/-- UTF-8 bytes of the serialized state; the `ensure_ascii` serializer only
emits ASCII, for which UTF-8 is the identity on code points. -/
def utf8Bytes (s : String) : List Nat :=
  s.toList.map Char.toNat

/-- 32-bit right rotation. -/
def rotr32 (n x : Nat) : Nat :=
  ((x >>> n) ||| (x <<< (32 - n))) % 4294967296

/-- 32-bit complement (arguments are kept below `2 ^ 32` throughout). -/
def not32 (x : Nat) : Nat :=
  4294967295 ^^^ x

/-- SHA-256 `Ch`. -/
def sha2Ch (x y z : Nat) : Nat :=
  (x &&& y) ^^^ (not32 x &&& z)

/-- SHA-256 `Maj`. -/
def sha2Maj (x y z : Nat) : Nat :=
  (x &&& y) ^^^ (x &&& z) ^^^ (y &&& z)

/-- SHA-256 `Σ0`. -/
def bsig0 (x : Nat) : Nat :=
  rotr32 2 x ^^^ rotr32 13 x ^^^ rotr32 22 x

/-- SHA-256 `Σ1`. -/
def bsig1 (x : Nat) : Nat :=
  rotr32 6 x ^^^ rotr32 11 x ^^^ rotr32 25 x

/-- SHA-256 `σ0`. -/
def ssig0 (x : Nat) : Nat :=
  rotr32 7 x ^^^ rotr32 18 x ^^^ (x >>> 3)

/-- SHA-256 `σ1`. -/
def ssig1 (x : Nat) : Nat :=
  rotr32 17 x ^^^ rotr32 19 x ^^^ (x >>> 10)

/-- The 64 SHA-256 round constants (FIPS 180-4, in decimal). -/
def sha2K : List Nat :=
  [1116352408, 1899447441, 3049323471, 3921009573,
   961987163, 1508970993, 2453635748, 2870763221,
   3624381080, 310598401, 607225278, 1426881987,
   1925078388, 2162078206, 2614888103, 3248222580,
   3835390401, 4022224774, 264347078, 604807628,
   770255983, 1249150122, 1555081692, 1996064986,
   2554220882, 2821834349, 2952996808, 3210313671,
   3336571891, 3584528711, 113926993, 338241895,
   666307205, 773529912, 1294757372, 1396182291,
   1695183700, 1986661051, 2177026350, 2456956037,
   2730485921, 2820302411, 3259730800, 3345764771,
   3516065817, 3600352804, 4094571909, 275423344,
   430227734, 506948616, 659060556, 883997877,
   958139571, 1322822218, 1537002063, 1747873779,
   1955562222, 2024104815, 2227730452, 2361852424,
   2428436474, 2756734187, 3204031479, 3329325298]

/-- SHA-256 working state. -/
structure Sha256State where
  a : Nat
  b : Nat
  c : Nat
  d : Nat
  e : Nat
  f : Nat
  g : Nat
  h : Nat

/-- One SHA-256 compression round. -/
def sha256Round (st : Sha256State) (ki wi : Nat) : Sha256State :=
  let t1 := (st.h + bsig1 st.e + sha2Ch st.e st.f st.g + ki + wi) % 4294967296
  let t2 := (bsig0 st.a + sha2Maj st.a st.b st.c) % 4294967296
  { a := (t1 + t2) % 4294967296, b := st.a, c := st.b, d := st.c,
    e := (st.d + t1) % 4294967296, f := st.e, g := st.f, h := st.g }

/-- Extend the 16 block words to the 64-word message schedule. -/
def sha256Extend : Nat → List Nat → List Nat
  | 0, ws => ws
  | n + 1, ws =>
    let len := ws.length
    let next := (ssig1 (ws.getD (len - 2) 0) + ws.getD (len - 7) 0 +
      ssig0 (ws.getD (len - 15) 0) + ws.getD (len - 16) 0) % 4294967296
    sha256Extend n (ws ++ [next])

/-- Compress one 16-word block into the running hash state. -/
def sha256Compress (st : Sha256State) (block : List Nat) : Sha256State :=
  let ws := sha256Extend 48 block
  let fin := (sha2K.zip ws).foldl (fun s kw => sha256Round s kw.1 kw.2) st
  { a := (st.a + fin.a) % 4294967296, b := (st.b + fin.b) % 4294967296,
    c := (st.c + fin.c) % 4294967296, d := (st.d + fin.d) % 4294967296,
    e := (st.e + fin.e) % 4294967296, f := (st.f + fin.f) % 4294967296,
    g := (st.g + fin.g) % 4294967296, h := (st.h + fin.h) % 4294967296 }

/-- Big-endian 4-byte groups to 32-bit words. -/
def bytesToWords : List Nat → List Nat
  | b0 :: b1 :: b2 :: b3 :: rest =>
    (b0 * 16777216 + b1 * 65536 + b2 * 256 + b3) :: bytesToWords rest
  | _ => []

/-- Split into 64-byte chunks (fuel-driven; the fuel is the list length). -/
def chunks64Go : Nat → List Nat → List (List Nat)
  | 0, _ => []
  | _ + 1, [] => []
  | n + 1, l => l.take 64 :: chunks64Go n (l.drop 64)

/-- Split a byte list into 64-byte chunks. -/
def chunks64 (l : List Nat) : List (List Nat) :=
  chunks64Go l.length l

/-- SHA-256 message padding: `0x80`, zeros to 56 mod 64, then the bit
length as 8 big-endian bytes. -/
def sha256Pad (msg : List Nat) : List Nat :=
  let len := msg.length
  msg ++ [128] ++ List.replicate ((119 - len % 64) % 64) 0 ++
    (List.range 8).map (fun i => ((len * 8) >>> (8 * (7 - i))) % 256)

/-- The eight 32-bit words of the SHA-256 digest of a byte string. -/
def sha256Words (msg : List Nat) : List Nat :=
  let st0 : Sha256State :=
    { a := 1779033703, b := 3144134277, c := 1013904242, d := 2773480762,
      e := 1359893119, f := 2600822924, g := 528734635, h := 1541459225 }
  let fin := (chunks64 (sha256Pad msg)).foldl
    (fun st block => sha256Compress st (bytesToWords block)) st0
  [fin.a % 4294967296, fin.b % 4294967296, fin.c % 4294967296,
   fin.d % 4294967296, fin.e % 4294967296, fin.f % 4294967296,
   fin.g % 4294967296, fin.h % 4294967296]

/-- `GameState.hash_state`: the first 16 characters of the lowercase hex
SHA-256 digest of the serialized state. -/
def hash_state (state : GameState) : String :=
  String.mk
    (((sha256Words (utf8Bytes (serialize_game_state state))).flatMap
      (hexFixed 8)).take 16)

/-- Resolve one player's submitted action list in order, collecting one
`ActionResult` per action (the inner loop of `resolve_turn`). -/
def apply_actions : GameState → List GameAction → GameState × List ActionResult
  | s, [] => (s, [])
  | s, a :: rest =>
    let r := apply_action s a
    let next := apply_actions r.1 rest
    (next.1, r.2 :: next.2)

/-- The outer loop of `resolve_turn`: players in the fixed order of
`state.players`, each player's actions via `apply_actions`, results stored
under the player's id (`results[player_id] = player_results`). -/
def resolve_players (pa : List (PlayerId × List GameAction)) :
    GameState → List PlayerId → List (PlayerId × List ActionResult) →
    GameState × List (PlayerId × List ActionResult)
  | s, [], results => (s, results)
  | s, pid :: rest, results =>
    let actions := (dictGet pa pid).getD []
    let r := apply_actions s actions
    resolve_players pa r.1 rest (dictInsert results pid r.2)

/-- `rules.py` `resolve_turn`: reset movement, resolve every player's
actions in player-list order, collect end-of-turn resources, advance the
turn counter, and report the *pre-increment* turn number together with the
post-increment state hash. -/
def resolve_turn (state : GameState)
    (player_actions : List (PlayerId × List GameAction)) :
    GameState × TurnResult :=
  let s1 := reset_unit_moves state
  let pr := resolve_players player_actions s1 s1.players []
  let s2 := collect_resources pr.1
  let current_turn := s2.turn
  let s3 := { s2 with turn := s2.turn + 1 }
  (s3, { turn := current_turn, player_actions := pr.2,
         state_hash := hash_state s3 })

/-- One tile of `rules.py` `generate_map`.  `rolls i` is the `i`-th
`rng.random()` output scaled by `2^53` (see the module comment), `idx` the
next unconsumed stream position.  The thresholds are the exact integer
bounds of the float comparisons against 0.4 / 0.6 / 0.8 (terrain) and
0.3 / 0.4 / 0.5 / 0.05 (resources).  The chained `elif`s mean a
plains/forest/mountain tile that fails its own resource roll still reaches
the final 5% crystal roll, consuming one more stream element. -/
def gen_tile (rolls : Nat → Nat) (idx : Nat) (x y : Nat) (tile_id : Int) :
    Tile × Nat :=
  let mk : Terrain → Option Resource → Tile := fun terrain resource =>
    { id := tile_id, loc := { x := (x : Int), y := (y : Int) },
      terrain := terrain, resource := resource }
  let troll := rolls idx
  if troll < 3602879701896397 then
    let r := rolls (idx + 1)
    if r < 2702159776422298 then (mk .plains (some .food), idx + 2)
    else
      let r2 := rolls (idx + 2)
      (mk .plains (if r2 < 450359962737050 then some .crystal else none), idx + 3)
  else if troll < 5404319552844595 then
    let r := rolls (idx + 1)
    if r < 3602879701896397 then (mk .forest (some .wood), idx + 2)
    else
      let r2 := rolls (idx + 2)
      (mk .forest (if r2 < 450359962737050 then some .crystal else none), idx + 3)
  else if troll < 7205759403792794 then
    let r := rolls (idx + 1)
    if r < 4503599627370496 then (mk .mountain (some .ore), idx + 2)
    else
      let r2 := rolls (idx + 2)
      (mk .mountain (if r2 < 450359962737050 then some .crystal else none), idx + 3)
  else
    let r := rolls (idx + 1)
    (mk .water (if r < 450359962737050 then some .crystal else none), idx + 2)

/-- One row (`for x in range(width)`) of `generate_map`. -/
def gen_cells (rolls : Nat → Nat) (y : Nat) :
    List Nat → Nat → Int → List Tile × Nat × Int
  | [], idx, tid => ([], idx, tid)
  | x :: xs, idx, tid =>
    let tc := gen_tile rolls idx x y tid
    let rest := gen_cells rolls y xs tc.2 (tid + 1)
    (tc.1 :: rest.1, rest.2)

/-- All rows (`for y in range(height)`) of `generate_map`. -/
def gen_rows (rolls : Nat → Nat) (width : Nat) :
    List Nat → Nat → Int → List Tile × Nat × Int
  | [], idx, tid => ([], idx, tid)
  | y :: ys, idx, tid =>
    let row := gen_cells rolls y (List.range width) idx tid
    let rest := gen_rows rolls width ys row.2.1 row.2.2
    (row.1 ++ rest.1, rest.2)

/-- `rules.py` `generate_map`, with the seeded `random.Random(seed)` stream
abstracted as `rolls` (each element one `rng.random()` output scaled by
`2^53`; the stream is a pure function of the seed). -/
def generate_map (width height : Nat) (rolls : Nat → Nat) : List Tile :=
  (gen_rows rolls width (List.range height) 0 0).1

/-- The per-player random placement search of
`PersistentGameController.create_game` (and `GameController.create_game`):
up to 100 attempts, each drawing one coordinate from the seeded rng
(`stream` abstracts the successive `rng.randint(2, 17)` pairs), accepted
when the tile exists, is plains or forest, and is at distance ≥ 5 from
every already-placed unit.  Returns the chosen coordinate (if any) and the
next unconsumed stream position. -/
def find_start_coord (tiles : List Tile) (units : List (Int × GameUnit))
    (stream : Nat → Coord) : Nat → Nat → Option Coord × Nat
  | 0, idx => (none, idx)
  | attempts + 1, idx =>
    let coord := stream idx
    match tiles.find? (fun t => t.loc = coord) with
    | some tile =>
      if tile.terrain = .plains ∨ tile.terrain = .forest then
        if units.any (fun ku => coord.distance_to ku.2.loc < 5) then
          find_start_coord tiles units stream attempts (idx + 1)
        else (some coord, idx + 1)
      else find_start_coord tiles units stream attempts (idx + 1)
    | none => find_start_coord tiles units stream attempts (idx + 1)

/-- The starting-worker placement loop of `create_game`: for each player in
order, try the random search; place a worker with `hp=100, moves_left=2` on
success, else fall back to the first plains/forest tile in list order (the
fallback runs only when the player still owns no unit).  The tiles are
never written: no `tile.unit_id` is set for starting workers. -/
def place_starting_workers (tiles : List Tile) (stream : Nat → Coord) :
    List PlayerId → List (Int × GameUnit) → Int → Nat → List (Int × GameUnit)
  | [], units, _, _ => units
  | player :: rest, units, unit_id, idx =>
    let found := find_start_coord tiles units stream 100 idx
    match found.1 with
    | some coord =>
      let worker : GameUnit :=
        { id := unit_id, owner := player, type := .worker, hp := 100,
          moves_left := 2, loc := coord }
      place_starting_workers tiles stream rest (dictInsert units unit_id worker)
        (unit_id + 1) found.2
    | none =>
      if units.any (fun ku => ku.2.owner = player) then
        place_starting_workers tiles stream rest units unit_id found.2
      else
        match tiles.find? (fun t => t.terrain = .plains ∨ t.terrain = .forest) with
        | some tile =>
          let worker : GameUnit :=
            { id := unit_id, owner := player, type := .worker, hp := 100,
              moves_left := 2, loc := tile.loc }
          place_starting_workers tiles stream rest
            (dictInsert units unit_id worker) (unit_id + 1) found.2
        | none => place_starting_workers tiles stream rest units unit_id found.2

/-- The in-memory `GameState` built by `create_game` (both controllers build
it identically): default-initialized state with the generated tiles, the
player list, `food=50, wood=20, ore=10` stockpiles, and one starting worker
per player. -/
def create_game_state (seed : Int) (tiles : List Tile)
    (players : List PlayerId) (stream : Nat → Coord) : GameState :=
  { rng_state := seed, tiles := tiles, players := players,
    stockpiles := players.foldl
      (fun d p => dictInsert d p { food := 50, wood := 20, ore := 10 }) [],
    units := place_starting_workers tiles stream players [] 1 0 }

/-- The in-memory half of `PersistentGameController`: the `_game_cache` and
`_pending_actions` dicts (the database repository and websocket broadcasts
are the excluded transport/persistence collaborators). -/
structure Controller where
  games : List (String × GameState) := []
  pending : List (String × List (PlayerId × List GameAction)) := []
deriving DecidableEq, Repr

/-- `self._pending_actions[game_id]` (a `defaultdict(dict)`). -/
def Controller.pending_for (c : Controller) (game_id : String) :
    List (PlayerId × List GameAction) :=
  (dictGet c.pending game_id).getD []

/-- `PersistentGameController._process_turn`, in-memory effects: resolve
the pending actions against the cached state, store the new state in the
cache, and clear the game's pending actions (snapshots, turn history and
victory bookkeeping live in the excluded repository). -/
def Controller.process_turn (c : Controller) (game_id : String) : Controller :=
  match dictGet c.games game_id with
  | none => c
  | some state =>
    let actions := c.pending_for game_id
    let r := resolve_turn state actions
    { games := dictInsert c.games game_id r.1,
      pending := dictInsert c.pending game_id [] }

/-- `PersistentGameController.submit_player_actions`: validate the game and
player, overwrite the player's pending submission, and — exactly when the
number of players with a pending submission equals the game's player count
— process the turn.  Unknown game / player raise `ValueError` in the
source, modelled as `Except.error`. -/
def Controller.submit_player_actions (c : Controller) (game_id : String)
    (player_id : PlayerId) (actions : List GameAction) :
    Except String Controller :=
  match dictGet c.games game_id with
  | none => .error ("Game " ++ game_id ++ " not found")
  | some state =>
    if player_id ∈ state.players then
      let pend := dictInsert (c.pending_for game_id) player_id actions
      let c1 : Controller := { c with pending := dictInsert c.pending game_id pend }
      if pend.length = state.players.length then .ok (c1.process_turn game_id)
      else .ok c1
    else .error ("Player not in game " ++ game_id)

/-- Spec §8 combat scenario: a soldier (id 1, hp 4) at (5,5) and an enemy
scout (id 2, hp 2) at (5,6), owners at peace. -/
def combat_demo_state : GameState :=
  { players := ["player1", "player2"],
    units := [(1, { id := 1, owner := "player1", type := .soldier, hp := 4,
                    moves_left := 2, loc := { x := 5, y := 5 } }),
              (2, { id := 2, owner := "player2", type := .scout, hp := 2,
                    moves_left := 3, loc := { x := 5, y := 6 } })] }

/-- The same scenario with the two owners allied. -/
def allied_demo_state : GameState :=
  { combat_demo_state with
    diplomacy := [(("player1", "player2"), DiplomaticState.alliance)] }

/-- A three-tile strip of plains with a scout (3 moves) at (5,5). -/
def move_demo_state : GameState :=
  { players := ["p1"],
    tiles := [{ id := 0, loc := { x := 5, y := 5 }, terrain := .plains,
                unit_id := some 1 },
              { id := 1, loc := { x := 6, y := 5 }, terrain := .plains },
              { id := 2, loc := { x := 7, y := 5 }, terrain := .plains }],
    units := [(1, { id := 1, owner := "p1", type := .scout, hp := 2,
                    moves_left := 3, loc := { x := 5, y := 5 } })] }

/-- A one-game controller cache holding a fresh two-player state. -/
def barrier_demo_controller : Controller :=
  { games := [("g", { players := ["p1", "p2"] })] }

/-- A city on a plains tile whose owner can afford any unit. -/
def train_demo_state : GameState :=
  { players := ["p1"],
    stockpiles := [("p1", { food := 50 })],
    tiles := [{ id := 1, loc := { x := 5, y := 5 }, terrain := .plains,
                city_id := some 1 }],
    cities := [(1, { id := 1, owner := "p1", loc := { x := 5, y := 5 } })] }

/-- A placement-rng stream whose first draw is (0,0) and later draws (6,0). -/
def creation_demo_stream : Nat → Coord :=
  fun n => if n = 0 then { x := 0, y := 0 } else { x := 6, y := 0 }

/-- A default `GameState` that differs from the default only in `turn`. -/
def turn_only_state (t : Int) : GameState :=
  { turn := t }

/-- The numeric value of the first 16 hex characters of a state hash (the
top 64 bits of the SHA-256 digest). -/
def hash_top64 (s : GameState) : Nat :=
  (sha256Words (utf8Bytes (serialize_game_state s))).getD 0 0 * 4294967296 +
    (sha256Words (utf8Bytes (serialize_game_state s))).getD 1 0

theorem dictGet_insert_self {κ α : Type} [DecidableEq κ]
    (d : List (κ × α)) (k : κ) (v : α) :
    dictGet (dictInsert d k v) k = some v := by
  induction d with
  | nil => simp [dictInsert, dictGet]
  | cons hd tl ih =>
    obtain ⟨k', v'⟩ := hd
    by_cases h : k' = k <;> simp [dictInsert, dictGet, h, ih]

theorem dictGet_insert_ne {κ α : Type} [DecidableEq κ]
    (d : List (κ × α)) (k k' : κ) (v : α) (h : k' ≠ k) :
    dictGet (dictInsert d k v) k' = dictGet d k' := by
  have hkk : ¬ k = k' := fun hh => h hh.symm
  induction d with
  | nil => simp [dictInsert, dictGet, hkk]
  | cons hd tl ih =>
    obtain ⟨k0, v0⟩ := hd
    by_cases h0 : k0 = k
    · subst h0
      simp [dictInsert, dictGet, hkk]
    · simp [dictInsert, if_neg h0, dictGet, ih]

theorem dictKeys_nil {κ α : Type} : dictKeys ([] : List (κ × α)) = [] := rfl

theorem dictKeys_cons {κ α : Type} (k : κ) (v : α) (tl : List (κ × α)) :
    dictKeys ((k, v) :: tl) = k :: dictKeys tl := rfl

theorem dictKeys_insert {κ α : Type} [DecidableEq κ]
    (d : List (κ × α)) (k : κ) (v : α) :
    dictKeys (dictInsert d k v) =
      if k ∈ dictKeys d then dictKeys d else dictKeys d ++ [k] := by
  induction d with
  | nil => simp [dictInsert, dictKeys]
  | cons hd tl ih =>
    obtain ⟨k0, v0⟩ := hd
    by_cases h0 : k0 = k
    · subst h0
      simp [dictInsert, dictKeys_cons]
    · have hne : ¬ k = k0 := fun hh => h0 hh.symm
      simp only [dictInsert, if_neg h0, dictKeys_cons, ih, List.mem_cons]
      by_cases hm : k ∈ dictKeys tl
      · simp [hm]
      · simp [hm, hne]

theorem length_dictInsert {κ α : Type} [DecidableEq κ]
    (d : List (κ × α)) (k : κ) (v : α) :
    (dictInsert d k v).length =
      if k ∈ dictKeys d then d.length else d.length + 1 := by
  induction d with
  | nil => simp [dictInsert, dictKeys]
  | cons hd tl ih =>
    obtain ⟨k0, v0⟩ := hd
    by_cases h0 : k0 = k
    · subst h0
      simp [dictInsert, dictKeys_cons]
    · have hne : ¬ k = k0 := fun hh => h0 hh.symm
      simp only [dictInsert, if_neg h0, List.length_cons, dictKeys_cons,
        List.mem_cons, ih]
      by_cases hm : k ∈ dictKeys tl
      · simp [hm]
      · simp [hm, hne]

theorem nodup_dictKeys_insert {κ α : Type} [DecidableEq κ]
    (d : List (κ × α)) (k : κ) (v : α) (h : (dictKeys d).Nodup) :
    (dictKeys (dictInsert d k v)).Nodup := by
  rw [dictKeys_insert]
  by_cases hm : k ∈ dictKeys d
  · rw [if_pos hm]
    exact h
  · rw [if_neg hm]
    simp [List.nodup_append, h, hm]

theorem mem_dictKeys_insert {κ α : Type} [DecidableEq κ]
    (d : List (κ × α)) (k k' : κ) (v : α) :
    k' ∈ dictKeys (dictInsert d k v) ↔ k' ∈ dictKeys d ∨ k' = k := by
  rw [dictKeys_insert]
  by_cases hm : k ∈ dictKeys d
  · rw [if_pos hm]
    constructor
    · exact fun h => Or.inl h
    · rintro (h | rfl)
      · exact h
      · exact hm
  · rw [if_neg hm]
    simp

theorem updateFirstTile_loc_stable (tiles : List Tile) (loc : Coord)
    (f : Tile → Tile) (hf : ∀ t, (f t).loc = t.loc) :
    (updateFirstTile tiles loc f).map Tile.loc = tiles.map Tile.loc := by
  induction tiles with
  | nil => rfl
  | cons hd tl ih =>
    by_cases h : hd.loc = loc <;> simp [updateFirstTile, h, hf, ih]

theorem find_updateFirstTile_self (tiles : List Tile) (loc : Coord)
    (f : Tile → Tile) (hf : ∀ t, (f t).loc = t.loc) :
    (updateFirstTile tiles loc f).find? (fun t => t.loc = loc) =
      (tiles.find? (fun t => t.loc = loc)).map f := by
  induction tiles with
  | nil => rfl
  | cons hd tl ih =>
    by_cases h : hd.loc = loc
    · have h1 : (f hd).loc = loc := (hf hd).trans h
      simp only [updateFirstTile, if_pos h]
      rw [List.find?_cons_of_pos _ (by simp [h1]),
        List.find?_cons_of_pos _ (by simp [h])]
      rfl
    · simp only [updateFirstTile, if_neg h]
      rw [List.find?_cons_of_neg _ (by simp [h]),
        List.find?_cons_of_neg _ (by simp [h])]
      exact ih

theorem find_updateFirstTile_ne (tiles : List Tile) (loc loc' : Coord)
    (f : Tile → Tile) (hf : ∀ t, (f t).loc = t.loc) (h : loc' ≠ loc) :
    (updateFirstTile tiles loc f).find? (fun t => t.loc = loc') =
      tiles.find? (fun t => t.loc = loc') := by
  induction tiles with
  | nil => rfl
  | cons hd tl ih =>
    by_cases h0 : hd.loc = loc
    · have h1 : ¬ (f hd).loc = loc' := by
        rw [hf hd, h0]
        exact fun hh => h hh.symm
      have h2 : ¬ hd.loc = loc' := by
        rw [h0]
        exact fun hh => h hh.symm
      simp only [updateFirstTile, if_pos h0]
      rw [List.find?_cons_of_neg _ (by simp [h1]),
        List.find?_cons_of_neg _ (by simp [h2])]
    · simp only [updateFirstTile, if_neg h0]
      by_cases h1 : hd.loc = loc'
      · rw [List.find?_cons_of_pos _ (by simp [h1]),
          List.find?_cons_of_pos _ (by simp [h1])]
      · rw [List.find?_cons_of_neg _ (by simp [h1]),
          List.find?_cons_of_neg _ (by simp [h1])]
        exact ih

theorem get_tile_update_self (s : GameState) (loc : Coord) (f : Tile → Tile)
    (hf : ∀ t, (f t).loc = t.loc) :
    (s.update_tile loc f).get_tile loc = (s.get_tile loc).map f :=
  find_updateFirstTile_self s.tiles loc f hf

theorem get_tile_update_ne (s : GameState) (loc loc' : Coord) (f : Tile → Tile)
    (hf : ∀ t, (f t).loc = t.loc) (h : loc' ≠ loc) :
    (s.update_tile loc f).get_tile loc' = s.get_tile loc' :=
  find_updateFirstTile_ne s.tiles loc loc' f hf h

theorem execute_move_fail (s : GameState) (a : MoveAction)
    (h : (execute_move s a).2.success = false) : (execute_move s a).1 = s := by
  cases hg : s.get_unit a.unit_id with
  | none => simp [execute_move, hg]
  | some u =>
    by_cases hv : (is_valid_move s u a.«to»).1
    · exfalso
      simp [execute_move, hg, hv] at h
    · simp [execute_move, hg, hv]

theorem attack_unit_hit_success (s : GameState) (a : AttackAction)
    (atk tgt : GameUnit) : (attack_unit_hit s a atk tgt).2.success = true := rfl

theorem attack_city_hit_success (s : GameState) (a : AttackAction)
    (atk : GameUnit) (c : City) : (attack_city_hit s a atk c).2.success = true := rfl

theorem execute_attack_fail (s : GameState) (a : AttackAction)
    (h : (execute_attack s a).2.success = false) : (execute_attack s a).1 = s := by
  cases hg : s.get_unit a.attacker_id with
  | none => simp [execute_attack, hg]
  | some atk =>
    by_cases ht : a.target_type = "unit"
    · cases ht2 : s.get_unit a.target_id with
      | none => simp [execute_attack, hg, ht, ht2]
      | some tgt =>
        by_cases hca : atk.can_attack tgt.loc
        · by_cases hal :
            s.get_diplomatic_state atk.owner tgt.owner = DiplomaticState.alliance
          · simp [execute_attack, hg, ht, ht2, hca, hal]
          · exfalso
            simp [execute_attack, hg, ht, ht2, hca, hal,
              attack_unit_hit_success] at h
        · simp [execute_attack, hg, ht, ht2, hca]
    · by_cases ht' : a.target_type = "city"
      · cases hc : s.get_city a.target_id with
        | none => simp [execute_attack, hg, ht, ht', hc]
        | some c =>
          by_cases hca : atk.can_attack c.loc
          · by_cases hal :
              s.get_diplomatic_state atk.owner c.owner = DiplomaticState.alliance
            · simp [execute_attack, hg, ht, ht', hc, hca, hal]
            · exfalso
              simp [execute_attack, hg, ht, ht', hc, hca, hal,
                attack_city_hit_success] at h
          · simp [execute_attack, hg, ht, ht', hc, hca]
      · simp [execute_attack, hg, ht, ht']

theorem execute_found_city_fail (s : GameState) (a : FoundCityAction)
    (h : (execute_found_city s a).2.success = false) :
    (execute_found_city s a).1 = s := by
  cases hg : s.get_unit a.worker_id with
  | none => simp [execute_found_city, hg]
  | some w =>
    by_cases hw : w.type ≠ UnitType.worker
    · simp [execute_found_city, hg, hw]
    · by_cases ha :
        (((dictGet s.stockpiles w.owner).getD {}).can_afford { food := 30 } : Bool)
      · cases htl : s.get_tile w.loc with
        | none => simp [execute_found_city, hg, hw, ha, htl]
        | some tile =>
          by_cases hc : pyTruthyInt tile.city_id
          · simp [execute_found_city, hg, hw, ha, htl, hc]
          · by_cases hter : tile.terrain = Terrain.water ∨ tile.terrain = Terrain.mountain
            · simp [execute_found_city, hg, hw, ha, htl, hc, hter]
            · exfalso
              simp [execute_found_city, hg, hw, ha, htl, hc, hter] at h
      · simp [execute_found_city, hg, hw, ha]

theorem execute_train_unit_fail (s : GameState) (a : TrainUnitAction)
    (h : (execute_train_unit s a).2.success = false) :
    (execute_train_unit s a).1 = s := by
  cases hg : s.get_city a.city_id with
  | none => simp [execute_train_unit, hg]
  | some c =>
    by_cases ha : (((dictGet s.stockpiles c.owner).getD {}).can_afford
      (if c.has_barracks then
        { food := ((UNIT_STATS a.unit_type).cost.food * 3).tdiv 4,
          wood := ((UNIT_STATS a.unit_type).cost.wood * 3).tdiv 4,
          ore := ((UNIT_STATS a.unit_type).cost.ore * 3).tdiv 4,
          crystal := ((UNIT_STATS a.unit_type).cost.crystal * 3).tdiv 4 }
      else (UNIT_STATS a.unit_type).cost) : Bool)
    · by_cases ho : (((s.get_tile c.loc).map
        (fun t => pyTruthyInt t.unit_id)).getD false : Bool)
      · simp [execute_train_unit, hg, ha, ho]
      · exfalso
        simp [execute_train_unit, hg, ha, ho] at h
    · simp [execute_train_unit, hg, ha]

theorem apply_action_fail (s : GameState) (a : GameAction)
    (h : (apply_action s a).2.success = false) : (apply_action s a).1 = s := by
  cases a with
  | move m => exact execute_move_fail s m h
  | attack m => exact execute_attack_fail s m h
  | found_city m => exact execute_found_city_fail s m h
  | train_unit m => exact execute_train_unit_fail s m h
  | build_improvement m => rfl
  | build_building m => rfl
  | unknown t => rfl

theorem update_tile_turn (s : GameState) (l : Coord) (f : Tile → Tile) :
    (s.update_tile l f).turn = s.turn := rfl

theorem attack_unit_hit_turn (s : GameState) (a : AttackAction)
    (atk tgt : GameUnit) : (attack_unit_hit s a atk tgt).1.turn = s.turn := by
  unfold attack_unit_hit
  dsimp only
  repeat' split
  all_goals rfl

theorem attack_city_hit_turn (s : GameState) (a : AttackAction)
    (atk : GameUnit) (c : City) : (attack_city_hit s a atk c).1.turn = s.turn := by
  unfold attack_city_hit
  dsimp only
  repeat' split
  all_goals rfl

theorem execute_move_turn (s : GameState) (a : MoveAction) :
    (execute_move s a).1.turn = s.turn := by
  cases hg : s.get_unit a.unit_id with
  | none => simp [execute_move, hg]
  | some u =>
    by_cases hv : (is_valid_move s u a.«to»).1
    · simp [execute_move, hg, hv, GameState.update_tile]
    · simp [execute_move, hg, hv]

theorem execute_attack_turn (s : GameState) (a : AttackAction) :
    (execute_attack s a).1.turn = s.turn := by
  cases hg : s.get_unit a.attacker_id with
  | none => simp [execute_attack, hg]
  | some atk =>
    by_cases ht : a.target_type = "unit"
    · cases ht2 : s.get_unit a.target_id with
      | none => simp [execute_attack, hg, ht, ht2]
      | some tgt =>
        by_cases hca : atk.can_attack tgt.loc
        · by_cases hal :
            s.get_diplomatic_state atk.owner tgt.owner = DiplomaticState.alliance
          · simp [execute_attack, hg, ht, ht2, hca, hal]
          · simpa [execute_attack, hg, ht, ht2, hca, hal] using
              attack_unit_hit_turn s a atk tgt
        · simp [execute_attack, hg, ht, ht2, hca]
    · by_cases ht' : a.target_type = "city"
      · cases hc : s.get_city a.target_id with
        | none => simp [execute_attack, hg, ht, ht', hc]
        | some c =>
          by_cases hca : atk.can_attack c.loc
          · by_cases hal :
              s.get_diplomatic_state atk.owner c.owner = DiplomaticState.alliance
            · simp [execute_attack, hg, ht, ht', hc, hca, hal]
            · simpa [execute_attack, hg, ht, ht', hc, hca, hal] using
                attack_city_hit_turn s a atk c
          · simp [execute_attack, hg, ht, ht', hc, hca]
      · simp [execute_attack, hg, ht, ht']

theorem execute_found_city_turn (s : GameState) (a : FoundCityAction) :
    (execute_found_city s a).1.turn = s.turn := by
  cases hg : s.get_unit a.worker_id with
  | none => simp [execute_found_city, hg]
  | some w =>
    by_cases hw : w.type ≠ UnitType.worker
    · simp [execute_found_city, hg, hw]
    · by_cases ha :
        (((dictGet s.stockpiles w.owner).getD {}).can_afford { food := 30 } : Bool)
      · cases htl : s.get_tile w.loc with
        | none => simp [execute_found_city, hg, hw, ha, htl]
        | some tile =>
          by_cases hc : pyTruthyInt tile.city_id
          · simp [execute_found_city, hg, hw, ha, htl, hc]
          · by_cases hter : tile.terrain = Terrain.water ∨ tile.terrain = Terrain.mountain
            · simp [execute_found_city, hg, hw, ha, htl, hc, hter]
            · simp [execute_found_city, hg, hw, ha, htl, hc, hter,
                GameState.update_tile]
      · simp [execute_found_city, hg, hw, ha]

theorem execute_train_unit_turn (s : GameState) (a : TrainUnitAction) :
    (execute_train_unit s a).1.turn = s.turn := by
  cases hg : s.get_city a.city_id with
  | none => simp [execute_train_unit, hg]
  | some c =>
    by_cases ha : (((dictGet s.stockpiles c.owner).getD {}).can_afford
      (if c.has_barracks then
        { food := ((UNIT_STATS a.unit_type).cost.food * 3).tdiv 4,
          wood := ((UNIT_STATS a.unit_type).cost.wood * 3).tdiv 4,
          ore := ((UNIT_STATS a.unit_type).cost.ore * 3).tdiv 4,
          crystal := ((UNIT_STATS a.unit_type).cost.crystal * 3).tdiv 4 }
      else (UNIT_STATS a.unit_type).cost) : Bool)
    · by_cases ho : (((s.get_tile c.loc).map
        (fun t => pyTruthyInt t.unit_id)).getD false : Bool)
      · simp [execute_train_unit, hg, ha, ho]
      · simp [execute_train_unit, hg, ha, ho, GameState.update_tile]
    · simp [execute_train_unit, hg, ha]

theorem apply_action_turn (s : GameState) (a : GameAction) :
    (apply_action s a).1.turn = s.turn := by
  cases a with
  | move m => exact execute_move_turn s m
  | attack m => exact execute_attack_turn s m
  | found_city m => exact execute_found_city_turn s m
  | train_unit m => exact execute_train_unit_turn s m
  | build_improvement m => rfl
  | build_building m => rfl
  | unknown t => rfl

theorem apply_actions_turn (l : List GameAction) :
    ∀ s : GameState, (apply_actions s l).1.turn = s.turn := by
  induction l with
  | nil => intro s; rfl
  | cons a rest ih =>
    intro s
    simp only [apply_actions]
    rw [ih, apply_action_turn]

theorem apply_actions_length (l : List GameAction) :
    ∀ s : GameState, (apply_actions s l).2.length = l.length := by
  induction l with
  | nil => intro s; rfl
  | cons a rest ih =>
    intro s
    simp only [apply_actions, List.length_cons]
    rw [ih]

theorem resolve_players_turn (pa : List (PlayerId × List GameAction))
    (players : List PlayerId) :
    ∀ (s : GameState) (results : List (PlayerId × List ActionResult)),
      (resolve_players pa s players results).1.turn = s.turn := by
  induction players with
  | nil => intro s r; rfl
  | cons q rest ih =>
    intro s r
    simp only [resolve_players]
    rw [ih, apply_actions_turn]

theorem collect_resources_turn (s : GameState) :
    (collect_resources s).turn = s.turn := rfl

theorem collect_resources_units (s : GameState) :
    (collect_resources s).units = s.units := rfl

theorem reset_unit_moves_turn (s : GameState) :
    (reset_unit_moves s).turn = s.turn := rfl

theorem reset_unit_moves_players (s : GameState) :
    (reset_unit_moves s).players = s.players := rfl

theorem resolve_players_preserve (pa : List (PlayerId × List GameAction))
    (players : List PlayerId) :
    ∀ (s : GameState) (results : List (PlayerId × List ActionResult))
      (p : PlayerId), p ∉ players →
      dictGet (resolve_players pa s players results).2 p = dictGet results p := by
  induction players with
  | nil => intro s r p _; rfl
  | cons q rest ih =>
    intro s r p hp
    have hq : p ≠ q := fun hh => hp (hh ▸ List.mem_cons_self q rest)
    have hr : p ∉ rest := fun hh => hp (List.mem_cons_of_mem q hh)
    simp only [resolve_players]
    rw [ih _ _ p hr, dictGet_insert_ne _ _ _ _ hq]

theorem resolve_players_lookup (pa : List (PlayerId × List GameAction))
    (players : List PlayerId) :
    ∀ (s : GameState) (results : List (PlayerId × List ActionResult))
      (p : PlayerId), p ∈ players →
      (dictGet (resolve_players pa s players results).2 p).map List.length =
        some ((dictGet pa p).getD []).length := by
  induction players with
  | nil => intro s r p hp; exact absurd hp (List.not_mem_nil p)
  | cons q rest ih =>
    intro s r p hp
    by_cases hr : p ∈ rest
    · simp only [resolve_players]
      exact ih _ _ p hr
    · have hpq : p = q := by
        rcases List.mem_cons.mp hp with h | h
        · exact h
        · exact absurd h hr
      subst hpq
      simp only [resolve_players]
      rw [resolve_players_preserve pa rest _ _ p hr, dictGet_insert_self]
      simp [apply_actions_length]

theorem resolve_players_keys (pa : List (PlayerId × List GameAction))
    (players : List PlayerId) :
    ∀ (s : GameState) (results : List (PlayerId × List ActionResult)),
      players.Nodup → (∀ p ∈ players, p ∉ dictKeys results) →
      dictKeys (resolve_players pa s players results).2 =
        dictKeys results ++ players := by
  induction players with
  | nil => intro s r _ _; simp [resolve_players]
  | cons q rest ih =>
    intro s r hnd hdisj
    have hqk : q ∉ dictKeys r := hdisj q (List.mem_cons_self q rest)
    simp only [resolve_players]
    rw [ih _ _ (List.Nodup.of_cons hnd)]
    · rw [dictKeys_insert, if_neg hqk]
      simp
    · intro p hp
      rw [mem_dictKeys_insert]
      rintro (h | rfl)
      · exact hdisj p (List.mem_cons_of_mem q hp) h
      · exact (List.nodup_cons.mp hnd).1 hp

theorem resolve_players_state_no_actions (players : List PlayerId) :
    ∀ (s : GameState) (results : List (PlayerId × List ActionResult)),
      (resolve_players [] s players results).1 = s := by
  induction players with
  | nil => intro s r; rfl
  | cons q rest ih =>
    intro s r
    simp only [resolve_players, dictGet, Option.getD_none, apply_actions]
    exact ih _ _

theorem dictGet_map_values {κ α β : Type} [DecidableEq κ] (f : α → β)
    (d : List (κ × α)) (k : κ) :
    dictGet (d.map (fun kv => (kv.1, f kv.2))) k = (dictGet d k).map f := by
  induction d with
  | nil => rfl
  | cons hd tl ih =>
    obtain ⟨k0, v0⟩ := hd
    by_cases h : k0 = k <;> simp [dictGet, h, ih]

theorem gen_tile_clear (rolls : Nat → Nat) (idx x y : Nat) (tid : Int) :
    (gen_tile rolls idx x y tid).1.unit_id = none ∧
    (gen_tile rolls idx x y tid).1.city_id = none ∧
    (gen_tile rolls idx x y tid).1.owner = none := by
  unfold gen_tile
  dsimp only
  repeat' split
  all_goals exact ⟨rfl, rfl, rfl⟩

theorem gen_cells_clear (rolls : Nat → Nat) (y : Nat) :
    ∀ (xs : List Nat) (idx : Nat) (tid : Int),
      ∀ t ∈ (gen_cells rolls y xs idx tid).1,
        t.unit_id = none ∧ t.city_id = none ∧ t.owner = none := by
  intro xs
  induction xs with
  | nil => intro idx tid t ht; exact absurd ht (List.not_mem_nil t)
  | cons x rest ih =>
    intro idx tid t ht
    simp only [gen_cells, List.mem_cons] at ht
    rcases ht with rfl | ht
    · exact gen_tile_clear rolls idx x y tid
    · exact ih _ _ t ht

theorem gen_rows_clear (rolls : Nat → Nat) (width : Nat) :
    ∀ (ys : List Nat) (idx : Nat) (tid : Int),
      ∀ t ∈ (gen_rows rolls width ys idx tid).1,
        t.unit_id = none ∧ t.city_id = none ∧ t.owner = none := by
  intro ys
  induction ys with
  | nil => intro idx tid t ht; exact absurd ht (List.not_mem_nil t)
  | cons y rest ih =>
    intro idx tid t ht
    simp only [gen_rows, List.mem_append] at ht
    rcases ht with ht | ht
    · exact gen_cells_clear rolls y _ _ _ t ht
    · exact ih _ _ t ht

theorem generate_map_clear (w h : Nat) (rolls : Nat → Nat) :
    ∀ t ∈ generate_map w h rolls,
      t.unit_id = none ∧ t.city_id = none ∧ t.owner = none :=
  fun t ht => gen_rows_clear rolls w (List.range h) 0 0 t ht

theorem gen_cells_length (rolls : Nat → Nat) (y : Nat) :
    ∀ (xs : List Nat) (idx : Nat) (tid : Int),
      (gen_cells rolls y xs idx tid).1.length = xs.length := by
  intro xs
  induction xs with
  | nil => intro idx tid; rfl
  | cons x rest ih =>
    intro idx tid
    simp only [gen_cells, List.length_cons, ih]

theorem gen_rows_length (rolls : Nat → Nat) (width : Nat) :
    ∀ (ys : List Nat) (idx : Nat) (tid : Int),
      (gen_rows rolls width ys idx tid).1.length = ys.length * width := by
  intro ys
  induction ys with
  | nil => intro idx tid; simp [gen_rows]
  | cons y rest ih =>
    intro idx tid
    simp only [gen_rows, List.length_append, gen_cells_length,
      List.length_range, ih, List.length_cons]
    ring

theorem dictGet_insert_cases {κ α : Type} [DecidableEq κ]
    (d : List (κ × α)) (k k' : κ) (v u : α)
    (h : dictGet (dictInsert d k v) k' = some u) :
    (k' = k ∧ u = v) ∨ dictGet d k' = some u := by
  by_cases hk : k' = k
  · subst hk
    rw [dictGet_insert_self] at h
    exact Or.inl ⟨rfl, (Option.some_inj.mp h).symm⟩
  · rw [dictGet_insert_ne _ _ _ _ hk] at h
    exact Or.inr h

theorem place_starting_workers_shape (tiles : List Tile) (stream : Nat → Coord) :
    ∀ (players : List PlayerId) (units : List (Int × GameUnit))
      (unit_id : Int) (idx : Nat),
      (∀ k u, dictGet units k = some u → u.hp = 100 ∧ u.type = UnitType.worker) →
      ∀ k u, dictGet (place_starting_workers tiles stream players units unit_id idx) k = some u →
        u.hp = 100 ∧ u.type = UnitType.worker := by
  intro players
  induction players with
  | nil => intro units unit_id idx hbase k u h; exact hbase k u h
  | cons p rest ih =>
    intro units unit_id idx hbase k u h
    simp only [place_starting_workers] at h
    rcases hfind : (find_start_coord tiles units stream 100 idx).1 with _ | coord
    · rw [hfind] at h
      by_cases hown : units.any (fun ku => ku.2.owner = p)
      · rw [if_pos hown] at h
        exact ih _ _ _ hbase k u h
      · rw [if_neg hown] at h
        rcases hfb : tiles.find? (fun t => t.terrain = Terrain.plains ∨ t.terrain = Terrain.forest) with _ | tile
        · rw [hfb] at h
          exact ih _ _ _ hbase k u h
        · rw [hfb] at h
          refine ih _ _ _ ?_ k u h
          intro k' u' h'
          rcases dictGet_insert_cases _ _ _ _ _ h' with ⟨_, rfl⟩ | h'
          · exact ⟨rfl, rfl⟩
          · exact hbase k' u' h'
    · rw [hfind] at h
      refine ih _ _ _ ?_ k u h
      intro k' u' h'
      rcases dictGet_insert_cases _ _ _ _ _ h' with ⟨_, rfl⟩ | h'
      · exact ⟨rfl, rfl⟩
      · exact hbase k' u' h'

theorem is_valid_move_true_iff (s : GameState) (u : GameUnit) (c : Coord)
    (hz : ∀ t ∈ s.tiles, t.unit_id ≠ some 0) :
    (is_valid_move s u c).1 = true ↔
      (u.loc.distance_to c ≤ u.moves_left ∧
       ∃ t, s.get_tile c = some t ∧ t.terrain ≠ Terrain.water ∧
         t.terrain ≠ Terrain.mountain ∧
         (t.unit_id = none ∨ t.unit_id = some u.id)) := by
  unfold is_valid_move
  dsimp only
  by_cases hd : u.loc.distance_to c > u.moves_left
  · rw [if_pos hd]
    constructor
    · intro hh
      exact absurd hh (by simp)
    · rintro ⟨h1, -⟩
      omega
  · rw [if_neg hd]
    cases hget : s.get_tile c with
    | none =>
      constructor
      · intro hh
        exact absurd hh (by simp)
      · rintro ⟨-, t', ht', -⟩
        exact absurd ht' (by simp)
    | some t =>
      dsimp only
      have htz : t.unit_id ≠ some 0 := hz t (List.mem_of_find?_eq_some hget)
      by_cases hw : t.terrain = Terrain.water
      · rw [if_pos hw]
        constructor
        · intro hh
          exact absurd hh (by simp)
        · rintro ⟨-, t', ht', hw', -⟩
          rw [Option.some_inj.mp ht'.symm] at hw'
          exact absurd hw hw'
      · rw [if_neg hw]
        by_cases hm : t.terrain = Terrain.mountain
        · rw [if_pos hm]
          constructor
          · intro hh
            exact absurd hh (by simp)
          · rintro ⟨-, t', ht', -, hm', -⟩
            rw [Option.some_inj.mp ht'.symm] at hm'
            exact absurd hm hm'
        · rw [if_neg hm]
          cases htid : t.unit_id with
          | none =>
            rw [if_neg (by simp [htid, pyTruthyInt])]
            constructor
            · intro _
              exact ⟨by omega, t, rfl, hw, hm, Or.inl htid⟩
            · intro _
              rfl
          | some v =>
            have hv0 : v ≠ 0 := by
              rintro rfl
              exact htz htid
            by_cases hvid : v = u.id
            · rw [if_neg (by simp [htid, pyTruthyInt, hvid])]
              constructor
              · intro _
                exact ⟨by omega, t, rfl, hw, hm, Or.inr (by rw [htid, hvid])⟩
              · intro _
                rfl
            · rw [if_pos (by simp [htid, pyTruthyInt, hv0, hvid])]
              constructor
              · intro hh
                exact absurd hh (by simp)
              · rintro ⟨-, t', ht', -, -, hid⟩
                rw [Option.some_inj.mp ht'.symm] at hid
                rcases hid with h0 | h0 <;> rw [htid] at h0
                · exact absurd h0 (by simp)
                · exact absurd (Option.some_inj.mp h0) hvid

theorem get_tile_set_units (s : GameState) (us : List (Int × GameUnit))
    (l : Coord) : ({ s with units := us } : GameState).get_tile l = s.get_tile l := rfl

theorem execute_move_success_iff (s : GameState) (a : MoveAction) (u : GameUnit)
    (hu : s.get_unit a.unit_id = some u) :
    ((execute_move s a).2.success = true ↔ (is_valid_move s u a.«to»).1 = true) := by
  by_cases hv : (is_valid_move s u a.«to»).1 <;> simp [execute_move, hu, hv]

theorem execute_move_success_post (s : GameState) (a : MoveAction) (u : GameUnit)
    (hu : s.get_unit a.unit_id = some u)
    (hv : (is_valid_move s u a.«to»).1 = true) :
    (execute_move s a).1.get_unit a.unit_id =
      some { u with loc := a.«to»,
                    moves_left := u.moves_left - u.loc.distance_to a.«to» } ∧
    (∀ t, (execute_move s a).1.get_tile a.«to» = some t →
      t.unit_id = some u.id) ∧
    (a.«to» ≠ u.loc →
      ∀ t, (execute_move s a).1.get_tile u.loc = some t → t.unit_id = none) := by
  have hstate : (execute_move s a).1 =
      { (s.update_tile u.loc (fun t => { t with unit_id := none })).update_tile
          a.«to» (fun t => { t with unit_id := some u.id }) with
        units := dictInsert ((s.update_tile u.loc
          (fun t => { t with unit_id := none })).update_tile a.«to»
          (fun t => { t with unit_id := some u.id })).units a.unit_id
          { u with loc := a.«to»,
                   moves_left := u.moves_left - u.loc.distance_to a.«to» } } := by
    simp [execute_move, hu, hv]
  refine ⟨?_, ?_, ?_⟩
  · rw [hstate]
    exact dictGet_insert_self _ _ _
  · intro t ht
    rw [hstate, get_tile_set_units,
      get_tile_update_self _ _ (fun t => { t with unit_id := some u.id })
        (fun t => rfl)] at ht
    cases hh : (s.update_tile u.loc
        (fun t => { t with unit_id := none })).get_tile a.«to» with
    | none => rw [hh] at ht; exact absurd ht (by simp)
    | some t0 =>
      rw [hh] at ht
      simp only [Option.map_some'] at ht
      rw [← Option.some_inj.mp ht]
  · intro hne t ht
    rw [hstate, get_tile_set_units,
      get_tile_update_ne _ _ _ (fun t => { t with unit_id := some u.id })
        (fun t => rfl) (fun hh => hne hh.symm),
      get_tile_update_self _ _ (fun t => { t with unit_id := none })
        (fun t => rfl)] at ht
    cases hh : s.get_tile u.loc with
    | none => rw [hh] at ht; exact absurd ht (by simp)
    | some t0 =>
      rw [hh] at ht
      simp only [Option.map_some'] at ht
      rw [← Option.some_inj.mp ht]

/-- C1: executing the spec's combat example on the code — a soldier
(attack 2, hp 4) attacking an enemy scout (attack 1, hp 2) at distance 1 —
succeeds but deals `max(1, 2 - 1 // 2) = 2` damage: the scout drops to 0 hp
and is removed, no counter-attack fires, and the soldier keeps 4 hp.  The
claim's (and the repository test suite's) expected outcome — scout at 1 hp,
soldier at 3 hp — does not hold on the code. -/
theorem c1_combat_example_on_code :
    (execute_attack combat_demo_state
      { attacker_id := 1, target_id := 2, target_type := "unit" }).2.success = true ∧
    (execute_attack combat_demo_state
      { attacker_id := 1, target_id := 2, target_type := "unit" }).1.get_unit 2 = none ∧
    ((execute_attack combat_demo_state
      { attacker_id := 1, target_id := 2, target_type := "unit" }).1.get_unit 1).map
        GameUnit.hp = some 4 := by
  refine ⟨by decide, by decide, by decide⟩

/-- C9: whenever the attacker exists and the target (unit or city) exists
and the two owners are in an alliance, `execute_attack` returns a failed
`ActionResult` and leaves the state — in particular every hp — unchanged;
and a player always counts as allied with themself. -/
theorem c9_allied_attack_always_fails (s : GameState) (a : AttackAction)
    (atk : GameUnit) (hatk : s.get_unit a.attacker_id = some atk) :
    (∀ tgt : GameUnit, a.target_type = "unit" →
      s.get_unit a.target_id = some tgt →
      s.get_diplomatic_state atk.owner tgt.owner = DiplomaticState.alliance →
      (execute_attack s a).2.success = false ∧ (execute_attack s a).1 = s) ∧
    (∀ c : City, a.target_type = "city" →
      s.get_city a.target_id = some c →
      s.get_diplomatic_state atk.owner c.owner = DiplomaticState.alliance →
      (execute_attack s a).2.success = false ∧ (execute_attack s a).1 = s) ∧
    (∀ p : PlayerId, s.get_diplomatic_state p p = DiplomaticState.alliance) := by
  refine ⟨?_, ?_, ?_⟩
  · intro tgt ht htgt hal
    by_cases hca : atk.can_attack tgt.loc
    · constructor <;> simp [execute_attack, hatk, ht, htgt, hca, hal]
    · constructor <;> simp [execute_attack, hatk, ht, htgt, hca]
  · intro city ht hc hal
    by_cases hca : atk.can_attack city.loc
    · constructor <;> simp [execute_attack, hatk, ht, hc, hca, hal]
    · constructor <;> simp [execute_attack, hatk, ht, hc, hca]
  · intro p
    simp [GameState.get_diplomatic_state]

/-- C9 witness: in the allied soldier/scout scenario the attack fails and
the state is untouched. -/
theorem c9_allied_attack_witness :
    (execute_attack allied_demo_state
      { attacker_id := 1, target_id := 2, target_type := "unit" }).2.success = false ∧
    (execute_attack allied_demo_state
      { attacker_id := 1, target_id := 2, target_type := "unit" }).1 =
      allied_demo_state :=
  (c9_allied_attack_always_fails allied_demo_state
    { attacker_id := 1, target_id := 2, target_type := "unit" }
    { id := 1, owner := "player1", type := .soldier, hp := 4,
      moves_left := 2, loc := { x := 5, y := 5 } } (by decide)).1
    { id := 2, owner := "player2", type := .scout, hp := 2,
      moves_left := 3, loc := { x := 5, y := 6 } }
    rfl (by decide) (by decide)

/-- C4: every action — the four implemented kinds, the unimplemented
`BUILD_IMPROVEMENT` / `BUILD_BUILDING` placeholders, and unknown action
tags — produces an `ActionResult` (the dispatcher is a total function),
and whenever the result has `success = false` the returned state is
exactly the input state: failures never partially mutate. -/
theorem c4_failures_never_mutate :
    ∀ (s : GameState) (a : GameAction),
      ((apply_action s a).2.success = false → (apply_action s a).1 = s) ∧
      (∀ m : BuildImprovementAction,
        (apply_action s (.build_improvement m)).2.success = false) ∧
      (∀ m : BuildBuildingAction,
        (apply_action s (.build_building m)).2.success = false) ∧
      (∀ t : String, (apply_action s (.unknown t)).2.success = false) :=
  fun s a =>
    ⟨apply_action_fail s a, fun _ => rfl, fun _ => rfl, fun _ => rfl⟩

/-- C4 witness: an unknown action tag fails and leaves the combat demo
state untouched. -/
theorem c4_failures_never_mutate_witness :
    (apply_action combat_demo_state (.unknown "FLY")).2.success = false ∧
    (apply_action combat_demo_state (.unknown "FLY")).1 = combat_demo_state :=
  ⟨rfl, (c4_failures_never_mutate combat_demo_state (.unknown "FLY")).1 rfl⟩

/-- C2: in the state built by `create_game` (map from `generate_map`, then
starting-worker placement), *every* unit's `loc` tile has `unit_id = None`:
creation never writes the tile back-references, so the claimed bidirectional
tile-occupant invariant is already violated at game creation for every
starting worker. -/
theorem c2_creation_breaks_tile_backref :
    ∀ (seed : Int) (w h : Nat) (rolls : Nat → Nat) (players : List PlayerId)
      (stream : Nat → Coord) (k : Int) (u : GameUnit) (t : Tile),
      dictGet (create_game_state seed (generate_map w h rolls) players
        stream).units k = some u →
      (create_game_state seed (generate_map w h rolls) players
        stream).get_tile u.loc = some t →
      t.unit_id = none := by
  intro seed w h rolls players stream k u t hu ht
  have htm : t ∈ generate_map w h rolls := List.mem_of_find?_eq_some ht
  exact (generate_map_clear w h rolls t htm).1

/-- C2 witness: on a concrete 7×1 all-plains map with two players, worker 1
exists at (0,0) while the tile at (0,0) carries no `unit_id`. -/
theorem c2_creation_breaks_tile_backref_witness :
    dictGet (create_game_state 42 (generate_map 7 1 (fun _ => 0))
      ["p1", "p2"] creation_demo_stream).units 1 =
      some { id := 1, owner := "p1", type := .worker, hp := 100,
             moves_left := 2, loc := { x := 0, y := 0 } } ∧
    (create_game_state 42 (generate_map 7 1 (fun _ => 0))
      ["p1", "p2"] creation_demo_stream).get_tile { x := 0, y := 0 } =
      some { id := 0, loc := { x := 0, y := 0 }, terrain := .plains,
             resource := some .food } ∧
    ({ id := 0, loc := { x := 0, y := 0 }, terrain := .plains,
       resource := some .food } : Tile).unit_id = none :=
  ⟨by decide, by decide,
    c2_creation_breaks_tile_backref 42 7 1 (fun _ => 0) ["p1", "p2"]
      creation_demo_stream 1
      { id := 1, owner := "p1", type := .worker, hp := 100,
        moves_left := 2, loc := { x := 0, y := 0 } }
      { id := 0, loc := { x := 0, y := 0 }, terrain := .plains,
        resource := some .food } (by decide) (by decide)⟩

/-- C10: every starting worker placed by `create_game` is created with
`hp = 100` (and is a worker), while the worker stat table says `hp = 2`,
which is exactly the hp given to a worker trained in a city — so
initially-placed and trained workers of the same type are created with
different hit points. -/
theorem c10_starting_vs_trained_worker_hp :
    (∀ (seed : Int) (tiles : List Tile) (players : List PlayerId)
       (stream : Nat → Coord) (k : Int) (u : GameUnit),
       dictGet (create_game_state seed tiles players stream).units k = some u →
       u.hp = 100 ∧ u.type = UnitType.worker) ∧
    (UNIT_STATS UnitType.worker).hp = 2 ∧
    (∀ (s : GameState) (a : TrainUnitAction) (u : GameUnit),
       a.unit_type = UnitType.worker →
       (execute_train_unit s a).2.success = true →
       dictGet (execute_train_unit s a).1.units s.next_unit_id = some u →
       u.hp = 2) := by
  refine ⟨?_, rfl, ?_⟩
  · intro seed tiles players stream k u hu
    exact place_starting_workers_shape tiles stream players [] 1 0
      (fun k' u' h' => absurd h' (by simp [dictGet])) k u hu
  · intro s a u hw hsucc hget
    cases hg : s.get_city a.city_id with
    | none => simp [execute_train_unit, hg] at hsucc
    | some c =>
      by_cases ha : (((dictGet s.stockpiles c.owner).getD {}).can_afford
        (if c.has_barracks then
          { food := ((UNIT_STATS a.unit_type).cost.food * 3).tdiv 4,
            wood := ((UNIT_STATS a.unit_type).cost.wood * 3).tdiv 4,
            ore := ((UNIT_STATS a.unit_type).cost.ore * 3).tdiv 4,
            crystal := ((UNIT_STATS a.unit_type).cost.crystal * 3).tdiv 4 }
        else (UNIT_STATS a.unit_type).cost) : Bool)
      · by_cases ho : (((s.get_tile c.loc).map
          (fun t => pyTruthyInt t.unit_id)).getD false : Bool)
        · simp [execute_train_unit, hg, ha, ho] at hsucc
        · have hunits : (execute_train_unit s a).1.units =
              dictInsert s.units s.next_unit_id
                { id := s.next_unit_id, owner := c.owner, type := a.unit_type,
                  hp := (UNIT_STATS a.unit_type).hp,
                  moves_left := (UNIT_STATS a.unit_type).moves, loc := c.loc } := by
            simp [execute_train_unit, hg, ha, ho, GameState.update_tile]
          rw [hunits, dictGet_insert_self] at hget
          have := Option.some_inj.mp hget
          rw [← this, hw]
          rfl
      · simp [execute_train_unit, hg, ha] at hsucc

/-- C10 witness: in the concrete creation demo the starting worker has
hp 100, and training a worker in a concrete city state yields hp 2. -/
theorem c10_starting_vs_trained_worker_hp_witness :
    (dictGet (create_game_state 42 (generate_map 7 1 (fun _ => 0))
      ["p1", "p2"] creation_demo_stream).units 1 = some
        { id := 1, owner := "p1", type := .worker, hp := 100,
          moves_left := 2, loc := { x := 0, y := 0 } }) ∧
    ({ id := 1, owner := "p1", type := .worker, hp := 100, moves_left := 2,
       loc := { x := 0, y := 0 } } : GameUnit).hp = 100 ∧
    (execute_train_unit train_demo_state
      { city_id := 1, unit_type := .worker }).2.success = true ∧
    (∀ u : GameUnit,
      dictGet (execute_train_unit train_demo_state
        { city_id := 1, unit_type := .worker }).1.units
          train_demo_state.next_unit_id = some u → u.hp = 2) := by
  refine ⟨by decide, ?_, by decide, ?_⟩
  · exact ((c10_starting_vs_trained_worker_hp.1 42 (generate_map 7 1 (fun _ => 0))
      ["p1", "p2"] creation_demo_stream 1 _ (by decide)).1)
  · intro u hu
    exact c10_starting_vs_trained_worker_hp.2.2 train_demo_state
      { city_id := 1, unit_type := .worker } u rfl (by decide) hu

/-- C6: for an existing unit (in a state whose tiles carry no unit id 0,
true of every engine-produced state since unit ids start at 1), a move
action succeeds exactly when the Manhattan distance is within `moves_left`,
the target tile exists, its terrain is neither water nor mountain, and no
other unit occupies it; on success the unit's entry holds the new position
with `moves_left` reduced by the distance, the target tile references the
unit, and (for a proper move) the vacated tile references nothing. -/
theorem c6_move_validity_and_effects (s : GameState) (a : MoveAction)
    (u : GameUnit) (hu : s.get_unit a.unit_id = some u)
    (hz : ∀ t ∈ s.tiles, t.unit_id ≠ some 0) :
    ((execute_move s a).2.success = true ↔
      (u.loc.distance_to a.«to» ≤ u.moves_left ∧
       ∃ t, s.get_tile a.«to» = some t ∧ t.terrain ≠ Terrain.water ∧
         t.terrain ≠ Terrain.mountain ∧
         (t.unit_id = none ∨ t.unit_id = some u.id))) ∧
    ((execute_move s a).2.success = true →
      ((execute_move s a).1.get_unit a.unit_id =
        some { u with loc := a.«to»,
                      moves_left := u.moves_left - u.loc.distance_to a.«to» } ∧
       (∀ t, (execute_move s a).1.get_tile a.«to» = some t →
         t.unit_id = some u.id) ∧
       (a.«to» ≠ u.loc →
         ∀ t, (execute_move s a).1.get_tile u.loc = some t →
           t.unit_id = none))) := by
  constructor
  · exact (execute_move_success_iff s a u hu).trans
      (is_valid_move_true_iff s u a.«to» hz)
  · intro hs
    exact execute_move_success_post s a u hu
      ((execute_move_success_iff s a u hu).mp hs)

/-- C6 witness: the scout with 3 moves at (5,5) moving to (7,5) on the
three-tile strip — the move succeeds and all postconditions hold. -/
theorem c6_move_validity_and_effects_witness :
    ((execute_move move_demo_state
        { unit_id := 1, «to» := { x := 7, y := 5 } }).2.success = true ↔
      (({ x := 5, y := 5 } : Coord).distance_to { x := 7, y := 5 } ≤ 3 ∧
       ∃ t, move_demo_state.get_tile { x := 7, y := 5 } = some t ∧
         t.terrain ≠ Terrain.water ∧ t.terrain ≠ Terrain.mountain ∧
         (t.unit_id = none ∨ t.unit_id = some 1))) ∧
    ((execute_move move_demo_state
        { unit_id := 1, «to» := { x := 7, y := 5 } }).2.success = true →
      ((execute_move move_demo_state
          { unit_id := 1, «to» := { x := 7, y := 5 } }).1.get_unit 1 =
        some { id := 1, owner := "p1", type := .scout, hp := 2,
               moves_left := 3 - ({ x := 5, y := 5 } : Coord).distance_to
                 { x := 7, y := 5 },
               loc := { x := 7, y := 5 } } ∧
       (∀ t, (execute_move move_demo_state
           { unit_id := 1, «to» := { x := 7, y := 5 } }).1.get_tile
             { x := 7, y := 5 } = some t → t.unit_id = some 1) ∧
       (({ x := 7, y := 5 } : Coord) ≠ { x := 5, y := 5 } →
         ∀ t, (execute_move move_demo_state
             { unit_id := 1, «to» := { x := 7, y := 5 } }).1.get_tile
               { x := 5, y := 5 } = some t → t.unit_id = none))) :=
  c6_move_validity_and_effects move_demo_state
    { unit_id := 1, «to» := { x := 7, y := 5 } }
    { id := 1, owner := "p1", type := .scout, hp := 2, moves_left := 3,
      loc := { x := 5, y := 5 } }
    (by decide) (by decide)

/-- C7: `generate_map` is a pure function of its inputs — streams that
agree pointwise (as the seeded rng stream of a fixed seed does) produce
identical tile lists — and it always succeeds, returning exactly
`width * height` tiles, hence a nonempty list for positive dimensions. -/
theorem c7_generate_map_pure :
    (∀ (w h : Nat) (r1 r2 : Nat → Nat), (∀ i, r1 i = r2 i) →
      generate_map w h r1 = generate_map w h r2) ∧
    (∀ (w h : Nat) (rolls : Nat → Nat),
      (generate_map w h rolls).length = w * h) ∧
    (∀ (w h : Nat) (rolls : Nat → Nat), 0 < w → 0 < h →
      generate_map w h rolls ≠ []) := by
  refine ⟨?_, ?_, ?_⟩
  · intro w h r1 r2 hr
    rw [funext hr]
  · intro w h rolls
    unfold generate_map
    rw [gen_rows_length, List.length_range, Nat.mul_comm]
  · intro w h rolls hw hh hnil
    have hlen : (generate_map w h rolls).length = w * h := by
      unfold generate_map
      rw [gen_rows_length, List.length_range, Nat.mul_comm]
    rw [hnil] at hlen
    have := Nat.mul_pos hw hh
    simp at hlen
    omega

/-- C7 witness: a concrete 3×2 map with a constant stream has 6 tiles and
is nonempty, and equals itself under a pointwise-equal stream. -/
theorem c7_generate_map_pure_witness :
    generate_map 3 2 (fun _ => 0) = generate_map 3 2 (fun i => 0 + i * 0) ∧
    (generate_map 3 2 (fun _ => 0)).length = 3 * 2 ∧
    generate_map 3 2 (fun _ => 0) ≠ [] :=
  ⟨c7_generate_map_pure.1 3 2 _ _ (fun i => by simp),
   c7_generate_map_pure.2.1 3 2 _,
   c7_generate_map_pure.2.2 3 2 _ (by decide) (by decide)⟩

theorem resolve_turn_state_turn (s : GameState)
    (pa : List (PlayerId × List GameAction)) :
    (resolve_turn s pa).1.turn = s.turn + 1 := by
  unfold resolve_turn
  dsimp only
  rw [collect_resources_turn, resolve_players_turn, reset_unit_moves_turn]

theorem resolve_turn_result_turn (s : GameState)
    (pa : List (PlayerId × List GameAction)) :
    (resolve_turn s pa).2.turn = s.turn := by
  unfold resolve_turn
  dsimp only
  rw [collect_resources_turn, resolve_players_turn, reset_unit_moves_turn]

theorem resolve_turn_results (s : GameState)
    (pa : List (PlayerId × List GameAction)) :
    (resolve_turn s pa).2.player_actions =
      (resolve_players pa (reset_unit_moves s) s.players []).2 := rfl

theorem resolve_turn_units_empty (s : GameState) :
    (resolve_turn s []).1.units = (reset_unit_moves s).units := by
  unfold resolve_turn
  dsimp only
  rw [collect_resources_units, resolve_players_state_no_actions]

/-- C5: `resolve_turn` increments `turn` by exactly 1, reports the
pre-increment turn number in the `TurnResult`, produces exactly one
`ActionResult` per submitted action for every player in `state.players`
(an empty list for players with no submission), keys the result map in
player-list order, and — visible with no submitted actions — has first
reset every unit's `moves_left` to its type's base `moves`. -/
theorem c5_resolve_turn_contract :
    ∀ (s : GameState) (pa : List (PlayerId × List GameAction)),
      (resolve_turn s pa).1.turn = s.turn + 1 ∧
      (resolve_turn s pa).2.turn = s.turn ∧
      (∀ p ∈ s.players,
        (dictGet (resolve_turn s pa).2.player_actions p).map List.length =
          some ((dictGet pa p).getD []).length) ∧
      (s.players.Nodup →
        dictKeys (resolve_turn s pa).2.player_actions = s.players) ∧
      (∀ k u, dictGet (resolve_turn s []).1.units k = some u →
        u.moves_left = (UNIT_STATS u.type).moves) := by
  intro s pa
  refine ⟨resolve_turn_state_turn s pa, resolve_turn_result_turn s pa, ?_, ?_, ?_⟩
  · intro p hp
    rw [resolve_turn_results]
    exact resolve_players_lookup pa s.players _ _ p hp
  · intro hnd
    rw [resolve_turn_results,
      resolve_players_keys pa s.players _ _ hnd
        (fun p _ h => absurd h (by simp [dictKeys]))]
    rfl
  · intro k u hu
    rw [resolve_turn_units_empty] at hu
    have hmap := dictGet_map_values
      (fun v : GameUnit => { v with moves_left := v.stats.moves }) s.units k
    have hu' : (dictGet s.units k).map
        (fun v : GameUnit => { v with moves_left := v.stats.moves }) = some u :=
      Eq.trans (Eq.symm hmap) hu
    cases hs : dictGet s.units k with
    | none => rw [hs] at hu'; exact absurd hu' (by simp)
    | some u0 =>
      rw [hs] at hu'
      simp only [Option.map_some'] at hu'
      rw [← Option.some_inj.mp hu']
      rfl

/-- C5 witness: resolving an empty-actions turn on the combat demo state
satisfies every clause at the concrete players. -/
theorem c5_resolve_turn_contract_witness :
    (resolve_turn combat_demo_state []).1.turn = combat_demo_state.turn + 1 ∧
    (resolve_turn combat_demo_state []).2.turn = combat_demo_state.turn ∧
    (dictGet (resolve_turn combat_demo_state []).2.player_actions
      "player1").map List.length =
      some ((dictGet ([] : List (PlayerId × List GameAction))
        "player1").getD []).length ∧
    dictKeys (resolve_turn combat_demo_state []).2.player_actions =
      combat_demo_state.players ∧
    (∀ k u, dictGet (resolve_turn combat_demo_state []).1.units k = some u →
      u.moves_left = (UNIT_STATS u.type).moves) :=
  ⟨(c5_resolve_turn_contract combat_demo_state []).1,
   (c5_resolve_turn_contract combat_demo_state []).2.1,
   (c5_resolve_turn_contract combat_demo_state []).2.2.1 "player1" (by decide),
   (c5_resolve_turn_contract combat_demo_state []).2.2.2.1 (by decide),
   (c5_resolve_turn_contract combat_demo_state []).2.2.2.2⟩

theorem submit_eq_of_found (c : Controller) (game_id : String)
    (player_id : PlayerId) (actions : List GameAction) (st : GameState)
    (hg : dictGet c.games game_id = some st)
    (hp : player_id ∈ st.players) :
    c.submit_player_actions game_id player_id actions =
      (if (dictInsert (c.pending_for game_id) player_id actions).length =
          st.players.length
       then .ok (Controller.process_turn
         ⟨c.games, dictInsert c.pending game_id
           (dictInsert (c.pending_for game_id) player_id actions)⟩ game_id)
       else .ok ⟨c.games, dictInsert c.pending game_id
         (dictInsert (c.pending_for game_id) player_id actions)⟩) := by
  unfold Controller.submit_player_actions
  rw [hg]
  dsimp only
  rw [if_pos hp]

theorem process_turn_eq_of_found (c : Controller) (game_id : String)
    (st : GameState) (hg : dictGet c.games game_id = some st) :
    c.process_turn game_id =
      { games := dictInsert c.games game_id
          (resolve_turn st (c.pending_for game_id)).1,
        pending := dictInsert c.pending game_id [] } := by
  unfold Controller.process_turn
  rw [hg]

/-- C3: the submission barrier.  After this submission is stored, the
pending map holds exactly the distinct players that have submitted, so its
size equals the player count iff every player has a pending submission;
while the size differs from the player count the submission stores the
actions and leaves the cached state (in particular `turn`) untouched; and
when the size reaches the player count the turn is processed exactly once —
the cached state's `turn` advances by exactly 1 and the game's pending
submissions are cleared. -/
theorem c3_submission_barrier :
    ∀ (c : Controller) (game_id : String) (player_id : PlayerId)
      (actions : List GameAction) (st : GameState),
      dictGet c.games game_id = some st →
      player_id ∈ st.players →
      st.players.Nodup →
      (dictKeys (c.pending_for game_id)).Nodup →
      (∀ p ∈ dictKeys (c.pending_for game_id), p ∈ st.players) →
      (((dictInsert (c.pending_for game_id) player_id actions).length =
          st.players.length ↔
        ∀ q ∈ st.players,
          q ∈ dictKeys (dictInsert (c.pending_for game_id) player_id actions)) ∧
       ((dictInsert (c.pending_for game_id) player_id actions).length ≠
          st.players.length →
        ∃ c', c.submit_player_actions game_id player_id actions = .ok c' ∧
          dictGet c'.games game_id = some st ∧
          c'.pending_for game_id =
            dictInsert (c.pending_for game_id) player_id actions) ∧
       ((dictInsert (c.pending_for game_id) player_id actions).length =
          st.players.length →
        ∃ c', c.submit_player_actions game_id player_id actions = .ok c' ∧
          (∃ st', dictGet c'.games game_id = some st' ∧
            st'.turn = st.turn + 1) ∧
          c'.pending_for game_id = [])) := by
  intro c game_id player_id actions st hg hp hnd hpnd hsub
  have hknd : (dictKeys (dictInsert (c.pending_for game_id) player_id
      actions)).Nodup := nodup_dictKeys_insert _ _ _ hpnd
  have hksub : ∀ p ∈ dictKeys (dictInsert (c.pending_for game_id) player_id
      actions), p ∈ st.players := by
    intro p hmem
    rcases (mem_dictKeys_insert _ _ _ _).mp hmem with h | rfl
    · exact hsub p h
    · exact hp
  have hlenkeys : (dictKeys (dictInsert (c.pending_for game_id) player_id
      actions)).length = (dictInsert (c.pending_for game_id) player_id
      actions).length := by simp [dictKeys]
  refine ⟨?_, ?_, ?_⟩
  · constructor
    · intro hlen q hq
      have hKP : (dictKeys (dictInsert (c.pending_for game_id) player_id
          actions)).toFinset ⊆ st.players.toFinset := by
        intro x hx
        rw [List.mem_toFinset] at *
        exact hksub x hx
      have hKeq : (dictKeys (dictInsert (c.pending_for game_id) player_id
          actions)).toFinset = st.players.toFinset := by
        apply Finset.eq_of_subset_of_card_le hKP
        rw [List.toFinset_card_of_nodup hnd,
          List.toFinset_card_of_nodup hknd, hlenkeys, hlen]
      rw [← List.mem_toFinset, ← hKeq, List.mem_toFinset] at hq
      exact hq
    · intro hall
      have hKP : (dictKeys (dictInsert (c.pending_for game_id) player_id
          actions)).toFinset ⊆ st.players.toFinset := by
        intro x hx
        rw [List.mem_toFinset] at *
        exact hksub x hx
      have hPK : st.players.toFinset ⊆ (dictKeys (dictInsert
          (c.pending_for game_id) player_id actions)).toFinset := by
        intro x hx
        rw [List.mem_toFinset] at *
        exact hall x hx
      have hKeq := Finset.Subset.antisymm hKP hPK
      have := congrArg Finset.card hKeq
      rw [List.toFinset_card_of_nodup hnd,
        List.toFinset_card_of_nodup hknd, hlenkeys] at this
      exact this
  · intro hne
    refine ⟨⟨c.games, dictInsert c.pending game_id
      (dictInsert (c.pending_for game_id) player_id actions)⟩, ?_, ?_, ?_⟩
    · rw [submit_eq_of_found c game_id player_id actions st hg hp, if_neg hne]
    · exact hg
    · show (dictGet (dictInsert c.pending game_id
        (dictInsert (c.pending_for game_id) player_id actions))
          game_id).getD [] = _
      rw [dictGet_insert_self]
      rfl
  · intro heq
    have hg1 : dictGet (Controller.games ⟨c.games, dictInsert c.pending game_id
        (dictInsert (c.pending_for game_id) player_id actions)⟩) game_id =
        some st := hg
    refine ⟨Controller.process_turn ⟨c.games, dictInsert c.pending game_id
        (dictInsert (c.pending_for game_id) player_id actions)⟩ game_id, ?_,
      ⟨(resolve_turn st (Controller.pending_for
          ⟨c.games, dictInsert c.pending game_id
            (dictInsert (c.pending_for game_id) player_id actions)⟩
          game_id)).1, ?_, ?_⟩, ?_⟩
    · rw [submit_eq_of_found c game_id player_id actions st hg hp, if_pos heq]
    · rw [process_turn_eq_of_found _ game_id st hg1]
      exact dictGet_insert_self _ _ _
    · exact resolve_turn_state_turn st _
    · rw [process_turn_eq_of_found _ game_id st hg1]
      show (dictGet (dictInsert _ game_id []) game_id).getD [] = _
      rw [dictGet_insert_self]
      rfl

/-- C3 witness: on a fresh two-player game, p1's submission (1 of 2) stores
pending actions without touching the state; p2's submission on the stored
controller would reach the barrier (both clauses instantiated at the
concrete controller). -/
theorem c3_submission_barrier_witness :
    ((dictInsert (barrier_demo_controller.pending_for "g") "p1"
        ([] : List GameAction)).length =
        ({ players := ["p1", "p2"] } : GameState).players.length ↔
      ∀ q ∈ ({ players := ["p1", "p2"] } : GameState).players,
        q ∈ dictKeys (dictInsert (barrier_demo_controller.pending_for "g")
          "p1" ([] : List GameAction))) ∧
    ((dictInsert (barrier_demo_controller.pending_for "g") "p1"
        ([] : List GameAction)).length ≠
        ({ players := ["p1", "p2"] } : GameState).players.length →
      ∃ c', barrier_demo_controller.submit_player_actions "g" "p1" [] =
          .ok c' ∧
        dictGet c'.games "g" = some { players := ["p1", "p2"] } ∧
        c'.pending_for "g" =
          dictInsert (barrier_demo_controller.pending_for "g") "p1" []) ∧
    ((dictInsert (barrier_demo_controller.pending_for "g") "p1"
        ([] : List GameAction)).length =
        ({ players := ["p1", "p2"] } : GameState).players.length →
      ∃ c', barrier_demo_controller.submit_player_actions "g" "p1" [] =
          .ok c' ∧
        (∃ st', dictGet c'.games "g" = some st' ∧
          st'.turn = ({ players := ["p1", "p2"] } : GameState).turn + 1) ∧
        c'.pending_for "g" = []) :=
  c3_submission_barrier barrier_demo_controller "g" "p1" []
    { players := ["p1", "p2"] } (by decide) (by decide) (by decide)
    (by decide) (by decide)

theorem hexFixed_length (w n : Nat) : (hexFixed w n).length = w := by
  simp [hexFixed]

theorem take16_two (l1 l2 r : List Char) (h1 : l1.length = 8)
    (h2 : l2.length = 8) : (l1 ++ (l2 ++ r)).take 16 = l1 ++ l2 := by
  rw [List.take_append_eq_append_take, List.take_of_length_le (by omega), h1]
  rw [show (16 - 8 : Nat) = 8 from rfl]
  rw [List.take_append_eq_append_take, List.take_of_length_le (by omega), h2]
  simp

theorem flatMap_hex_take16 (l : List Nat) (hl : l.length = 8) :
    ((l.flatMap (hexFixed 8)).take 16) =
      hexFixed 8 (l.getD 0 0) ++ hexFixed 8 (l.getD 1 0) := by
  match l, hl with
  | [a, b, c, d, e, f, g, h], _ =>
    show (hexFixed 8 a ++ (hexFixed 8 b ++ _)).take 16 = _
    rw [take16_two _ _ _ (hexFixed_length 8 a) (hexFixed_length 8 b)]
    rfl

theorem sha256Words_length (msg : List Nat) : (sha256Words msg).length = 8 := by
  unfold sha256Words
  rfl

theorem sha256Words_getD_lt (msg : List Nat) (i : Nat) :
    (sha256Words msg).getD i 0 < 4294967296 := by
  unfold sha256Words
  dsimp only
  rcases i with _ | _ | _ | _ | _ | _ | _ | _ | i <;> simp [List.getD] <;> omega

theorem hash_state_eq_hex_top (s : GameState) :
    hash_state s =
      String.mk (hexFixed 8
        ((sha256Words (utf8Bytes (serialize_game_state s))).getD 0 0) ++
        hexFixed 8
        ((sha256Words (utf8Bytes (serialize_game_state s))).getD 1 0)) := by
  unfold hash_state
  rw [flatMap_hex_take16 _ (sha256Words_length _)]

theorem hash_top64_lt (s : GameState) :
    hash_top64 s < 4294967296 * 4294967296 := by
  have h0 := sha256Words_getD_lt (utf8Bytes (serialize_game_state s)) 0
  have h1 := sha256Words_getD_lt (utf8Bytes (serialize_game_state s)) 1
  unfold hash_top64
  omega

theorem hash_state_eq_of_top64 (s1 s2 : GameState)
    (h : hash_top64 s1 = hash_top64 s2) : hash_state s1 = hash_state s2 := by
  have h0a := sha256Words_getD_lt (utf8Bytes (serialize_game_state s1)) 0
  have h1a := sha256Words_getD_lt (utf8Bytes (serialize_game_state s1)) 1
  have h0b := sha256Words_getD_lt (utf8Bytes (serialize_game_state s2)) 0
  have h1b := sha256Words_getD_lt (utf8Bytes (serialize_game_state s2)) 1
  unfold hash_top64 at h
  have hw0 : (sha256Words (utf8Bytes (serialize_game_state s1))).getD 0 0 =
      (sha256Words (utf8Bytes (serialize_game_state s2))).getD 0 0 := by omega
  have hw1 : (sha256Words (utf8Bytes (serialize_game_state s1))).getD 1 0 =
      (sha256Words (utf8Bytes (serialize_game_state s2))).getD 1 0 := by omega
  rw [hash_state_eq_hex_top, hash_state_eq_hex_top, hw0, hw1]

/-- C8 counterexample: hashes are truncated to 16 hex characters, so the
map `turn ↦ hash` on states that differ only in `turn` lands in a finite
set of at most `2^64` values while `turn` ranges over infinitely many
integers — by pigeonhole, two states with identical non-`turn` fields and
different `turn` values share a hash, refuting "two GameState values that
differ only in the turn field produce different hash strings". -/
theorem c8_turn_sensitivity_counterexample :
    ¬ (∀ s1 s2 : GameState,
        s1.turn ≠ s2.turn → s1.rng_state = s2.rng_state →
        s1.map_width = s2.map_width → s1.map_height = s2.map_height →
        s1.tiles = s2.tiles → s1.units = s2.units → s1.cities = s2.cities →
        s1.players = s2.players → s1.diplomacy = s2.diplomacy →
        s1.stockpiles = s2.stockpiles → s1.next_unit_id = s2.next_unit_id →
        s1.next_city_id = s2.next_city_id → s1.max_turns = s2.max_turns →
        hash_state s1 ≠ hash_state s2) := by
  intro hcl
  obtain ⟨m, n, hmn, heq⟩ := Finite.exists_ne_map_eq_of_infinite
    (fun t : ℕ => (⟨hash_top64 (turn_only_state t),
      hash_top64_lt (turn_only_state t)⟩ : Fin (4294967296 * 4294967296)))
  have hval : hash_top64 (turn_only_state m) = hash_top64 (turn_only_state n) :=
    congrArg Fin.val heq
  have hturn : (turn_only_state (m : Int)).turn ≠ (turn_only_state (n : Int)).turn := by
    intro hh
    have hh' : (m : Int) = (n : Int) := hh
    exact hmn (by exact_mod_cast hh')
  exact hcl (turn_only_state m) (turn_only_state n) hturn rfl rfl rfl rfl rfl
    rfl rfl rfl rfl rfl rfl rfl (hash_state_eq_of_top64 _ _ hval)

/-- C8 amended: `hash_state` is deterministic — states with identical field
values hash identically — and every hash is a string of at most 16 hex
characters (hence at most `16^16` distinct hashes exist, which is why
turn-sensitivity cannot hold universally; it remains a generic expectation,
not a theorem, for particular states). -/
theorem c8_hash_deterministic_and_truncated :
    (∀ s1 s2 : GameState,
      s1.turn = s2.turn → s1.rng_state = s2.rng_state →
      s1.map_width = s2.map_width → s1.map_height = s2.map_height →
      s1.tiles = s2.tiles → s1.units = s2.units → s1.cities = s2.cities →
      s1.players = s2.players → s1.diplomacy = s2.diplomacy →
      s1.stockpiles = s2.stockpiles → s1.next_unit_id = s2.next_unit_id →
      s1.next_city_id = s2.next_city_id → s1.max_turns = s2.max_turns →
      hash_state s1 = hash_state s2) ∧
    (∀ s : GameState, (hash_state s).length ≤ 16) := by
  constructor
  · intro s1 s2 h1 h2 h3 h4 h5 h6 h7 h8 h9 h10 h11 h12 h13
    have hss : s1 = s2 := by
      cases s1
      cases s2
      simp_all
    rw [hss]
  · intro s
    unfold hash_state
    show (List.take 16 _).length ≤ 16
    exact List.length_take_le _ _

/-- C8 amended witness: determinism applied at a concrete pair of equal
states, and the length bound at a concrete state. -/
theorem c8_hash_deterministic_and_truncated_witness :
    hash_state (turn_only_state 0) = hash_state (turn_only_state 0) ∧
    (hash_state (turn_only_state 0)).length ≤ 16 :=
  ⟨c8_hash_deterministic_and_truncated.1 (turn_only_state 0)
      (turn_only_state 0) rfl rfl rfl rfl rfl rfl rfl rfl rfl rfl rfl rfl rfl,
   c8_hash_deterministic_and_truncated.2 (turn_only_state 0)⟩
